import Mathlib

/-!
Verification of the fleet-dashboard aggregation pipeline.

The repository is a Python dashboard: `gm_api.py` is the remote-API client
(status classifier, parallel trip fetch with retries, report generation with
rate-limit backoff) and `app.py` is the aggregation pipeline (fuel-report
pipeline, trip day-partition, KPI reduction, compliance buckets,
active-tracker filter).

The Python code operates on parsed JSON, so the embedding works over a JSON
value type `JVal`.  Python semantics that the code relies on are made
explicit: truthiness, `dict.get` with defaults (raising AttributeError on
non-dicts), `x or y`, `.lower()` on strings, subscripting, `float(...)`,
and `datetime.strptime`.  Exceptions are modelled with `Except String`;
machine floats are modelled with rationals.
-/

/-- Parsed JSON value, the data the Python functions operate on. -/
inductive JVal where
  | null : JVal
  | bool : Bool → JVal
  | num : ℚ → JVal
  | str : String → JVal
  | arr : List JVal → JVal
  | obj : List (String × JVal) → JVal

/-- Python truthiness (`bool(v)`) of a JSON value. -/
def truthy : JVal → Bool
  | .null => false
  | .bool b => b
  | .num q => if q = 0 then false else true
  | .str s => if s = "" then false else true
  | .arr l => !l.isEmpty
  | .obj l => !l.isEmpty

/-- Dictionary key lookup (first binding wins; Python dicts have unique keys). -/
def jfind (fields : List (String × JVal)) (k : String) : Option JVal :=
  fields.lookup k

/-- Python `v.get(k, d)`: works on dicts, raises AttributeError otherwise. -/
def pyGetD (v : JVal) (k : String) (d : JVal) : Except String JVal :=
  match v with
  | .obj fields => .ok ((jfind fields k).getD d)
  | _ => .error "AttributeError"

/-- Python `v.get(k)` (default `None`). -/
def pyGet (v : JVal) (k : String) : Except String JVal :=
  pyGetD v k .null

/-- Python `a or b`. -/
def pyOr (a b : JVal) : JVal :=
  if truthy a then a else b

/-- ASCII lower-casing of one character. -/
def lowerChar (c : Char) : Char :=
  if 65 ≤ c.toNat ∧ c.toNat ≤ 90 then Char.ofNat (c.toNat + 32) else c

/-- Python `s.lower()` restricted to ASCII letters, which is all the
classifier's enum comparisons ever look at. -/
def lowerStr (s : String) : String := String.mk (s.data.map lowerChar)

/-- Python `v.lower()`: works on strings, raises AttributeError otherwise. -/
def pyLower : JVal → Except String String
  | .str s => .ok (lowerStr s)
  | _ => .error "AttributeError"

/-! ## Status classifier (gm_api.py, GMAPI.get_tracker_status, lines 68-103)

The five Russian result strings are the five canonical statuses of the spec:
"В движении" = Moving, "Стоит" = Stopped,
"Стоит с включенным зажиганием" = IdlingIgnitionOn,
"Нет координат" = NoCoordinates, "Не в сети" = Offline. -/
/-- Offline connection statuses (gm_api.py line 86). -/
def offline_statuses : List String :=
  ["offline", "signal_lost", "just_registered", "just_replaced"]

/-- Decision chain of gm_api.py lines 85-103, after the three fields are read. -/
def statusFromFields (conn move : String) (ign : Bool) : String :=
  if conn ∈ offline_statuses ∨ conn = "" then "Не в сети"
  else if conn = "idle" then "Нет координат"
  else if conn = "active" ∧ move = "parked" then
    if ign then "Стоит с включенным зажиганием" else "Стоит"
  else if conn = "active" ∧ (move = "moving" ∨ move = "stopped") then "В движении"
  else "Не в сети"

/-- Embedding of `GMAPI.get_tracker_status` (gm_api.py lines 68-103).
`if not state_obj` is Python truthiness; `state_obj.get("state", state_obj)`
supports the flat-or-nested shape; the two status fields go through
`(s.get(k) or "").lower()`; ignition defaults to `False`. -/
def get_tracker_status (state_obj : JVal) : Except String String :=
  if truthy state_obj = false then .ok "Не в сети" else
  match pyGetD state_obj "state" state_obj with
  | .error e => .error e
  | .ok s =>
    match pyGet s "connection_status" with
    | .error e => .error e
    | .ok connRaw =>
      match pyLower (pyOr connRaw (.str "")) with
      | .error e => .error e
      | .ok conn =>
        match pyGet s "movement_status" with
        | .error e => .error e
        | .ok moveRaw =>
          match pyLower (pyOr moveRaw (.str "")) with
          | .error e => .error e
          | .ok move =>
            match pyGetD s "ignition" (.bool false) with
            | .error e => .error e
            | .ok ignition => .ok (statusFromFields conn move (truthy ignition))

/-- A field is absent, null, or a string (the shapes a tracker-state payload
uses for its two status fields). -/
def strOrNullOrAbsent (fields : List (String × JVal)) (k : String) : Bool :=
  match jfind fields k with
  | none => true
  | some .null => true
  | some (.str _) => true
  | some _ => false

/-- Raw tracker-state payloads: falsy values (null, empty object, ...) or an
object in flat shape, or in nested shape with a `state` sub-object, whose
`connection_status` and `movement_status` are absent, null or strings. -/
def wellFormedState (v : JVal) : Bool :=
  if truthy v = false then true
  else match v with
    | .obj fields =>
      match jfind fields "state" with
      | some (.obj g) =>
        strOrNullOrAbsent g "connection_status" && strOrNullOrAbsent g "movement_status"
      | some _ => false
      | none =>
        strOrNullOrAbsent fields "connection_status" && strOrNullOrAbsent fields "movement_status"
    | _ => false

/-- The effective field list a state is read from: the `state` sub-object when
present and a dict, the object itself otherwise. -/
def effFieldsOf : JVal → List (String × JVal)
  | .obj fields =>
    match jfind fields "state" with
    | some (.obj g) => g
    | _ => fields
  | _ => []

/-- Lower-cased string value of a field, empty when absent, null or non-string. -/
def lowerField (g : List (String × JVal)) (k : String) : String :=
  match jfind g k with
  | some (.str s) => lowerStr s
  | _ => ""

/-- Modelled from the claim's words: the ordered first-match rules of claim C1
(spec section 4.2), over already-extracted fields. -/
def specStatusChain (conn move : String) (ign : Bool) : String :=
  if conn = "" ∨ conn ∈ offline_statuses then "Не в сети"
  else if conn = "idle" then "Нет координат"
  else if conn = "active" ∧ move = "parked" then
    if ign then "Стоит с включенным зажиганием" else "Стоит"
  else if conn = "active" ∧ (move = "moving" ∨ move = "stopped") then "В движении"
  else "Не в сети"

/-- Modelled from the claim's words: the ordered first-match classification
rules of claim C1 / spec section 4.2, to be compared with the source
embedding `get_tracker_status`: null/empty input is Offline, the two string
fields are compared case-insensitively (flat or nested shape), ignition
defaults to false. -/
def classifySpec (v : JVal) : String :=
  if truthy v = false then "Не в сети"
  else
    specStatusChain (lowerField (effFieldsOf v) "connection_status")
      (lowerField (effFieldsOf v) "movement_status")
      (truthy ((jfind (effFieldsOf v) "ignition").getD (.bool false)))

/-- The five canonical statuses. -/
def canonicalStatuses : List String :=
  ["В движении", "Стоит", "Стоит с включенным зажиганием", "Нет координат", "Не в сети"]

/-- A concrete raw state: flat shape, mixed-case enums, ignition on. -/
def exampleState : JVal :=
  .obj [("connection_status", .str "ACTIVE"), ("movement_status", .str "Parked"),
        ("ignition", .bool true)]

/-! ## Trip day-partition (app.py, module level, lines 410-437)

For each tracker item the loop walks its trips, reads `start_date`, skips
falsy values, slices the first 10 characters and appends the trip to the
yesterday bucket, the day-before bucket, or neither. -/
/-- Python `s[:10]` (works on strings; slicing anything else raises). -/
def pySlice10 : JVal → Except String String
  | .str s => .ok (s.take 10)
  | _ => .error "TypeError"

/-- One iteration of the partition loop body (app.py lines 423-434). -/
def splitStep (y db : String) (acc : List JVal × List JVal) (tr : JVal) :
    Except String (List JVal × List JVal) :=
  match pyGet tr "start_date" with
  | .error e => .error e
  | .ok start =>
    if truthy start = false then .ok acc
    else
      match pySlice10 start with
      | .error e => .error e
      | .ok trip_date =>
        if trip_date = y then .ok (acc.1 ++ [tr], acc.2)
        else if trip_date = db then .ok (acc.1, acc.2 ++ [tr])
        else .ok acc

/-- The partition loop over a trip list, carrying the two buckets. -/
def splitTrips (y db : String) :
    List JVal → List JVal × List JVal → Except String (List JVal × List JVal)
  | [], acc => .ok acc
  | tr :: rest, acc =>
    match splitStep y db acc tr with
    | .error e => .error e
    | .ok acc2 => splitTrips y db rest acc2

/-- Embedding of the day-partition applied to one tracker's trip list
(app.py lines 420-434): buckets start empty. -/
def two_days_partition (trips : List JVal) (y db : String) :
    Except String (List JVal × List JVal) :=
  splitTrips y db trips ([], [])

/-- Date key of a trip: the first 10 characters of a non-empty string
`start_date`, none otherwise. -/
def tripDateKey (tr : JVal) : Option String :=
  match tr with
  | .obj fields =>
    match jfind fields "start_date" with
    | some (.str s) => if s = "" then none else some (s.take 10)
    | _ => none
  | _ => none

/-- A trip whose `start_date` is absent, null or a string, sitting in a dict. -/
def wfTripStart (tr : JVal) : Bool :=
  match tr with
  | .obj fields => strOrNullOrAbsent fields "start_date"
  | _ => false

/-- The spec's partition example: a trip started 2025-11-16 10:00:00 lands
only in the yesterday bucket for yesterday = 2025-11-16, and a trip with no
`start_date` is dropped from both. -/
def exampleTripYesterday : JVal :=
  .obj [("start_date", .str "2025-11-16 10:00:00"), ("length", .num 12)]

def exampleTripNoStart : JVal :=
  .obj [("length", .num 3)]

/-! ## Fuel report parsing (app.py, parse_fuel_report, lines 583-604)

The parser checks `if not rep or not rep.get("success")` OUTSIDE its
try/except, then extracts `rep["report"]["sheets"][0]["sections"][0]
["data"][0].get("total", {})` inside the try, reading five "raw" fields via
`get_val`; any exception inside the try degrades to an empty dict. -/
/-- Python subscripting `v[k]` with a string key: KeyError when the key is
missing, TypeError on non-dicts. -/
def pySubscr (v : JVal) (k : String) : Except String JVal :=
  match v with
  | .obj fields =>
    match jfind fields k with
    | some x => .ok x
    | none => .error "KeyError"
  | _ => .error "TypeError"

/-- Python subscripting `v[i]` with an integer: lists index, strings give a
one-character string, everything else raises TypeError. -/
def pyIndex (v : JVal) (i : Nat) : Except String JVal :=
  match v with
  | .arr l =>
    match l.get? i with
    | some x => .ok x
    | none => .error "IndexError"
  | .str s =>
    match s.data.get? i with
    | some c => .ok (.str (String.mk [c]))
    | none => .error "IndexError"
  | _ => .error "TypeError"

/-- Embedding of the inner `get_val` (app.py lines 592-594):
`item.get(key, {})` then `item.get("raw", 0) if isinstance(item.get("raw"),
(int, float)) else 0`; Python booleans count as ints. -/
def get_val (o : JVal) (key : String) : Except String JVal :=
  match pyGetD o key (.obj []) with
  | .error e => .error e
  | .ok item =>
    match pyGet item "raw" with
    | .error e => .error e
    | .ok raw =>
      match raw with
      | .num q => .ok (.num q)
      | .bool b => .ok (.bool b)
      | _ => .ok (.num 0)

/-- The nested extraction inside the try block (app.py lines 587-602). -/
def parse_fuel_body (rep : JVal) : Except String JVal :=
  match pySubscr rep "report" with
  | .error e => .error e
  | .ok report =>
    match pySubscr report "sheets" with
    | .error e => .error e
    | .ok sheets =>
      match pyIndex sheets 0 with
      | .error e => .error e
      | .ok sheet =>
        match pySubscr sheet "sections" with
        | .error e => .error e
        | .ok sections =>
          match pyIndex sections 0 with
          | .error e => .error e
          | .ok sec =>
            match pySubscr sec "data" with
            | .error e => .error e
            | .ok dataArr =>
              match pyIndex dataArr 0 with
              | .error e => .error e
              | .ok data_block =>
                match pyGetD data_block "total" (.obj []) with
                | .error e => .error e
                | .ok total_row =>
                  match get_val total_row "fillingsCount" with
                  | .error e => .error e
                  | .ok fc =>
                    match get_val total_row "fillingsVolume" with
                    | .error e => .error e
                    | .ok fv =>
                      match get_val total_row "drainsCount" with
                      | .error e => .error e
                      | .ok dc =>
                        match get_val total_row "drainsVolume" with
                        | .error e => .error e
                        | .ok dv =>
                          match get_val total_row "consumed" with
                          | .error e => .error e
                          | .ok cons =>
                            .ok (.obj [("fillings_count", fc),
                                       ("fillings_vol", fv),
                                       ("drains_count", dc),
                                       ("drains_vol", dv),
                                       ("consumed", cons)])

/-- Embedding of `parse_fuel_report` (app.py lines 583-604).  The
falsy/success check is outside the try: its AttributeError is NOT caught. -/
def parse_fuel_report (rep : JVal) : Except String JVal :=
  if truthy rep = false then .ok (.obj [])
  else
    match pyGet rep "success" with
    | .error e => .error e
    | .ok su =>
      if truthy su = false then .ok (.obj [])
      else
        match parse_fuel_body rep with
        | .error _ => .ok (.obj [])
        | .ok v => .ok v

/-- A total-row entry whose value, when present, is a dict and whose `raw`
is not a Python boolean (out of scope for the claim's "numeric" wording). -/
def wfFuelItem (trf : List (String × JVal)) (k : String) : Bool :=
  match jfind trf k with
  | none => true
  | some (.obj itf) =>
    match jfind itf "raw" with
    | some (.bool _) => false
    | _ => true
  | some _ => false

/-- Modelled from the claim's words: the extracted value of one metric -- the
numeric `raw` field, defaulting to 0 when the field is missing or
non-numeric. -/
def get_val_spec (trf : List (String × JVal)) (k : String) : JVal :=
  match jfind trf k with
  | some (.obj itf) =>
    match jfind itf "raw" with
    | some (.num q) => .num q
    | _ => .num 0
  | _ => .num 0

/-- The `total` row of a data block, as a field list when it is a dict. -/
def totalRowOf (dbf : List (String × JVal)) : Option (List (String × JVal)) :=
  match (jfind dbf "total").getD (.obj []) with
  | .obj trf => some trf
  | _ => none

/-- Field list of a well-formed retrieved fuel report, with one non-numeric
raw field (`consumed`) to exercise the default. -/
def exampleFuelFields : List (String × JVal) :=
  [("success", .bool true),
   ("report", .obj [("sheets", .arr [
     .obj [("sections", .arr [
       .obj [("data", .arr [
         .obj [("total", .obj [
           ("fillingsCount", .obj [("raw", .num 2)]),
           ("fillingsVolume", .obj [("raw", .num 100)]),
           ("drainsCount", .obj [("raw", .num 1)]),
           ("drainsVolume", .obj [("raw", .num 10)]),
           ("consumed", .obj [("raw", .str "n/a")])])]])]])]])])]

/-! ## Fuel loss percentage (app.py lines 639-664)

`loss_pct` and `loss_pct_db` are computed by the same guarded formula; the
operands come from `parse_fuel_report` results via `.get(key, 0)`. -/
/-- Embedding of the loss-percentage computation (app.py lines 640-643,
646-649 and 661-664). -/
def loss_pct (fillings_vol drains_vol : ℚ) : ℚ :=
  if fillings_vol > 0 then drains_vol / fillings_vol * 100 else 0

/-- A total-row entry whose numeric raw field, if any, is non-negative. -/
def rawNonNeg (trf : List (String × JVal)) (k : String) : Bool :=
  match jfind trf k with
  | some (.obj itf) =>
    match jfind itf "raw" with
    | some (.num q) => decide (0 ≤ q)
    | _ => true
  | _ => true

/-- Numeric value of one extracted fuel metric. -/
def get_val_q (trf : List (String × JVal)) (k : String) : ℚ :=
  match get_val_spec trf k with
  | .num q => q
  | _ => 0

/-- Field list of a retrieved fuel report whose `fillingsVolume` raw value is
negative. -/
def exampleFuelNegFields : List (String × JVal) :=
  [("success", .bool true),
   ("report", .obj [("sheets", .arr [
     .obj [("sections", .arr [
       .obj [("data", .arr [
         .obj [("total", .obj [
           ("fillingsVolume", .obj [("raw", .num (-5))])])]])]])]])])]

/-! ## Date parsing (datetime.strptime on the two formats the code uses)

`%Y-%m-%d` dates become civil day numbers (days since 1970-01-01) and
`%Y-%m-%d %H:%M:%S` timestamps become seconds since that epoch, so that
`date` comparisons and `(end - start).total_seconds()` are exact integer
arithmetic. -/
/-- Gregorian leap year. -/
def isLeap (y : Nat) : Bool := (y % 4 == 0 && y % 100 != 0) || y % 400 == 0

/-- Number of days in a month, as `datetime` validates it. -/
def daysInMonth (y m : Nat) : Nat :=
  if m = 2 then (if isLeap y then 29 else 28)
  else if m = 4 ∨ m = 6 ∨ m = 9 ∨ m = 11 then 30
  else 31

/-- Days since 1970-01-01 of a civil date (standard days-from-civil
algorithm; all intermediate values are non-negative for years ≥ 1). -/
def daysFromCivil (y m d : Nat) : Int :=
  let yi : Int := if m ≤ 2 then (y : Int) - 1 else (y : Int)
  let era : Int := yi / 400
  let yoe : Int := yi - era * 400
  let mp : Int := ((m : Int) + 9) % 12
  let doy : Int := (153 * mp + 2) / 5 + (d : Int) - 1
  let doe : Int := yoe * 365 + yoe / 4 - yoe / 100 + doy
  era * 146097 + doe - 719468

/-- Split a character list on a separator character (same shape as Python
`str.split(sep)`: consecutive separators yield empty pieces). -/
def splitOnChar (c : Char) : List Char → List (List Char)
  | [] => [[]]
  | x :: xs =>
    let r := splitOnChar c xs
    if x = c then [] :: r
    else
      match r with
      | [] => [[x]]
      | y :: ys => (x :: y) :: ys

/-- ASCII digit test. -/
def isDigitC (c : Char) : Bool := 48 ≤ c.toNat && c.toNat ≤ 57

/-- Digit-string to number (none when empty or non-digit). -/
def digitsToNat (l : List Char) : Option Nat :=
  if l.isEmpty then none
  else if l.all isDigitC then
    some (l.foldl (fun n c => n * 10 + (c.toNat - 48)) 0)
  else none

/-- `datetime.strptime(s, "%Y-%m-%d").date()` as a civil day number; none
models ValueError (datetime also rejects year 0). -/
def parseDate (s : String) : Option Int :=
  match splitOnChar (Char.ofNat 45) s.data with
  | [ys, ms, ds] =>
    match digitsToNat ys, digitsToNat ms, digitsToNat ds with
    | some y, some m, some d =>
      if ys.length ≤ 4 ∧ ms.length ≤ 2 ∧ ds.length ≤ 2 ∧ 1 ≤ y ∧
         1 ≤ m ∧ m ≤ 12 ∧ 1 ≤ d ∧ d ≤ daysInMonth y m then
        some (daysFromCivil y m d)
      else none
    | _, _, _ => none
  | _ => none

/-- `datetime.strptime(s, "%Y-%m-%d %H:%M:%S")` as seconds since the epoch;
none models ValueError. -/
def parseDateTime (s : String) : Option Int :=
  match splitOnChar (Char.ofNat 32) s.data with
  | [dcs, tcs] =>
    match parseDate (String.mk dcs), splitOnChar (Char.ofNat 58) tcs with
    | some day, [hs, ms, ss] =>
      match digitsToNat hs, digitsToNat ms, digitsToNat ss with
      | some h, some mi, some sec =>
        if hs.length ≤ 2 ∧ ms.length ≤ 2 ∧ ss.length ≤ 2 ∧
           h ≤ 23 ∧ mi ≤ 59 ∧ sec ≤ 61 then
          some (day * 86400 + h * 3600 + mi * 60 + sec)
        else none
      | _, _, _ => none
    | _, _ => none
  | _ => none

/-- `datetime.strptime` applied to a JSON value: non-strings raise TypeError,
which every caller in the code catches together with ValueError, so both
collapse to none here. -/
def pyStrptimeDT (v : JVal) : Option Int :=
  match v with
  | .str s => parseDateTime s
  | _ => none

/-! ## Compliance buckets (app.py, process_driver_licenses lines 97-131 and
process_insurance lines 133-171)

Both functions walk their entity list and classify a `YYYY-MM-DD` date field
into one of four buckets, counting and collecting display names.  `today` is
passed explicitly as a civil day number (the code reads the wall clock). -/
/-- The four compliance buckets. -/
inductive Bucket where
  | ok : Bucket
  | expiring : Bucket
  | expired : Bucket
  | empty : Bucket
deriving DecidableEq

/-- The `stats` counters dict. -/
structure ComplianceStats where
  ok : Nat
  expiring : Nat
  expired : Nat
  empty : Nat
deriving DecidableEq

/-- The `details` name-lists dict. -/
structure ComplianceDetails where
  ok : List String
  expiring : List String
  expired : List String
  empty : List String
deriving DecidableEq

/-- `stats[key] += 1`. -/
def bump (st : ComplianceStats) : Bucket → ComplianceStats
  | .ok => ⟨st.ok + 1, st.expiring, st.expired, st.empty⟩
  | .expiring => ⟨st.ok, st.expiring + 1, st.expired, st.empty⟩
  | .expired => ⟨st.ok, st.expiring, st.expired + 1, st.empty⟩
  | .empty => ⟨st.ok, st.expiring, st.expired, st.empty + 1⟩

/-- `details[key].append(name)`. -/
def addDetail (d : ComplianceDetails) (b : Bucket) (name : String) :
    ComplianceDetails :=
  match b with
  | .ok => ⟨d.ok ++ [name], d.expiring, d.expired, d.empty⟩
  | .expiring => ⟨d.ok, d.expiring ++ [name], d.expired, d.empty⟩
  | .expired => ⟨d.ok, d.expiring, d.expired ++ [name], d.empty⟩
  | .empty => ⟨d.ok, d.expiring, d.expired, d.empty ++ [name]⟩

/-- Python f-string rendering of a value (exact for strings, which is what
the data contains; containers get a placeholder -- display text only). -/
def pyFStrO : JVal → String
  | .str s => s
  | .null => "None"
  | .bool true => "True"
  | .bool false => "False"
  | .num q => toString q
  | .arr _ => "[...]"
  | .obj _ => "[object]"

/-- The shared per-entity date classification (app.py lines 108-129 and
149-169): falsy date is Empty, unparseable string is Empty (ValueError is
caught), parsed date before today is Expired, within 30 days ExpiringSoon,
else Ok.  A truthy non-string raises TypeError, which `except ValueError`
does NOT catch. -/
def classify_date (today : Int) (valid_till : JVal) : Except String Bucket :=
  if truthy valid_till = false then .ok .empty
  else
    match valid_till with
    | .str s =>
      match parseDate s with
      | none => .ok .empty
      | some dt =>
        .ok (if dt < today then .expired
             else if today ≤ dt ∧ dt < today + 30 then .expiring
             else .ok)
    | _ => .error "TypeError"

/-- The liability-insurance date value of a vehicle field list. -/
def liabVal (fields : List (String × JVal)) : JVal :=
  (jfind fields "liability_insurance_valid_till").getD .null

/-- The comprehensive-insurance date value of a vehicle field list. -/
def freeVal (fields : List (String × JVal)) : JVal :=
  (jfind fields "free_insurance_valid_till").getD .null

/-- The driver-license date value of an employee field list. -/
def dlVal (fields : List (String × JVal)) : JVal :=
  (jfind fields "driver_license_valid_till").getD .null

/-- One iteration of the `process_driver_licenses` loop (app.py 104-129). -/
def process_one_employee (today : Int) (acc : ComplianceStats × ComplianceDetails)
    (emp : JVal) : Except String (ComplianceStats × ComplianceDetails) :=
  match emp with
  | .obj fields =>
    let name := (pyFStrO ((jfind fields "first_name").getD (.str "")) ++ " " ++
      pyFStrO ((jfind fields "last_name").getD (.str ""))).trim
    match classify_date today (dlVal fields) with
    | .error e => .error e
    | .ok b => .ok (bump acc.1 b, addDetail acc.2 b name)
  | _ => .error "AttributeError"

/-- The `process_driver_licenses` loop (app.py lines 97-131). -/
def process_driver_licenses (today : Int) :
    List JVal → ComplianceStats × ComplianceDetails →
    Except String (ComplianceStats × ComplianceDetails)
  | [], acc => .ok acc
  | emp :: rest, acc =>
    match process_one_employee today acc emp with
    | .error e => .error e
    | .ok acc2 => process_driver_licenses today rest acc2

/-- `process_driver_licenses` from the zero counters. -/
def process_driver_licenses_run (today : Int) (employees : List JVal) :
    Except String (ComplianceStats × ComplianceDetails) :=
  process_driver_licenses today employees (⟨0, 0, 0, 0⟩, ⟨[], [], [], []⟩)

/-- One iteration of the `process_insurance` loop (app.py 140-169): the date
used is `liability_insurance_valid_till or free_insurance_valid_till`. -/
def process_one_vehicle (today : Int) (acc : ComplianceStats × ComplianceDetails)
    (v : JVal) : Except String (ComplianceStats × ComplianceDetails) :=
  match v with
  | .obj fields =>
    let name := (jfind fields "label").getD (.str "Без названия")
    let reg := (jfind fields "reg_number").getD (.str "")
    let item := if truthy reg then pyFStrO name ++ " — " ++ pyFStrO reg
      else pyFStrO name
    match classify_date today (pyOr (liabVal fields) (freeVal fields)) with
    | .error e => .error e
    | .ok b => .ok (bump acc.1 b, addDetail acc.2 b item)
  | _ => .error "AttributeError"

/-- The `process_insurance` loop (app.py lines 133-171). -/
def process_insurance (today : Int) :
    List JVal → ComplianceStats × ComplianceDetails →
    Except String (ComplianceStats × ComplianceDetails)
  | [], acc => .ok acc
  | v :: rest, acc =>
    match process_one_vehicle today acc v with
    | .error e => .error e
    | .ok acc2 => process_insurance today rest acc2

/-- `process_insurance` from the zero counters. -/
def process_insurance_run (today : Int) (vehicles : List JVal) :
    Except String (ComplianceStats × ComplianceDetails) :=
  process_insurance today vehicles (⟨0, 0, 0, 0⟩, ⟨[], [], [], []⟩)

/-- Modelled from the claim's words: missing or unparseable date is Empty,
a date strictly before today is Expired, a date in [today, today + 30) is
ExpiringSoon, anything later is Ok. -/
def bucketSpec (today : Int) (valid_till : JVal) : Bucket :=
  match valid_till with
  | .str s =>
    if s = "" then .empty
    else
      match parseDate s with
      | none => .empty
      | some d =>
        if d < today then .expired
        else if d < today + 30 then .expiring
        else .ok
  | _ => .empty

/-- A date field value the Python code can classify without raising: a
string, or anything falsy. -/
def wfDateField (v : JVal) : Bool :=
  match v with
  | .str _ => true
  | _ => !truthy v

/-- Bucket an employee lands in (for well-formed employees). -/
def licBucketJ (today : Int) : JVal → Bucket
  | .obj fields => bucketSpec today (dlVal fields)
  | _ => .empty

/-- Bucket a vehicle lands in (for well-formed vehicles). -/
def insBucketJ (today : Int) : JVal → Bucket
  | .obj fields => bucketSpec today (pyOr (liabVal fields) (freeVal fields))
  | _ => .empty

/-- An employee dict whose license date field can be classified. -/
def wfEmployee (emp : JVal) : Bool :=
  match emp with
  | .obj fields => wfDateField (dlVal fields)
  | _ => false

/-- A vehicle dict whose selected insurance date field can be classified. -/
def wfVehicle (v : JVal) : Bool :=
  match v with
  | .obj fields => wfDateField (pyOr (liabVal fields) (freeVal fields))
  | _ => false

/-- Occurrences of one bucket in a list. -/
def bucketCount (bs : List Bucket) (b : Bucket) : Nat :=
  (bs.filter (fun x => x == b)).length

/-- Counters derived from a bucket list. -/
def statsOf (bs : List Bucket) : ComplianceStats :=
  ⟨bucketCount bs .ok, bucketCount bs .expiring, bucketCount bs .expired,
   bucketCount bs .empty⟩

/-- An employee whose license expires 2025-06-20. -/
def exampleEmployee : JVal :=
  .obj [("first_name", .str "Ann"), ("last_name", .str "Lee"),
        ("driver_license_valid_till", .str "2025-06-20")]

/-! ## Active-tracker filter (app.py, module level, lines 359-394)

For each tracker id the loop reads the state's `last_update`; a missing or
falsy value is conservatively included, a parse failure is included (bare
`except: append`), and a parsed timestamp is included exactly when it is at
least `period_start - 1 day`.  There is no upper bound: the wall clock is
never consulted. -/
/-- One pass of the filter loop, carrying the accumulated id list. -/
def active_filter_go (period_start : Int) (states : List (Int × JVal)) :
    List Int → List Int → Except String (List Int)
  | [], acc => .ok acc
  | tid :: rest, acc =>
    let state_obj := (states.lookup tid).getD (.obj [])
    match pyGetD state_obj "state" state_obj with
    | .error e => .error e
    | .ok s =>
      match pyGet s "last_update" with
      | .error e => .error e
      | .ok lu =>
        if truthy lu = false then
          active_filter_go period_start states rest (acc ++ [tid])
        else
          match pyStrptimeDT lu with
          | none => active_filter_go period_start states rest (acc ++ [tid])
          | some lu_dt =>
            if lu_dt ≥ period_start - 86400 then
              active_filter_go period_start states rest (acc ++ [tid])
            else active_filter_go period_start states rest acc

/-- Embedding of the `active_tracker_ids` construction (app.py 360-394). -/
def active_tracker_filter (period_start : Int) (states : List (Int × JVal))
    (tracker_ids : List Int) : Except String (List Int) :=
  active_filter_go period_start states tracker_ids []

/-- A state payload whose `state` member, when present, is a dict. -/
def wfStateShape (v : JVal) : Bool :=
  match v with
  | .obj fields =>
    match jfind fields "state" with
    | some (.obj _) => true
    | some _ => false
    | none => true
  | _ => false

/-- Modelled from the amended claim's words: include a tracker iff its
last-update is absent or falsy, or fails to parse, or parses to at least
`period_start - 1 day` (no upper bound). -/
def includeSpec (ps : Int) (states : List (Int × JVal)) (tid : Int) : Bool :=
  let lu := (jfind (effFieldsOf ((states.lookup tid).getD (.obj []))) "last_update").getD .null
  if truthy lu = false then true
  else
    match pyStrptimeDT lu with
    | none => true
    | some t => decide (t ≥ ps - 86400)

/-- States table for the counterexample: tracker 42 last updated in 2099. -/
def cexStates : List (Int × JVal) :=
  [(42, .obj [("last_update", .str "2099-01-01 00:00:00")])]

/-- Period start of the counterexample: 2025-11-15 00:00:00. -/
def psCex : Int := daysFromCivil 2025 11 15 * 86400

/-! ## Parallel trip fetch (gm_api.py, GMAPI.get_trips_parallel, lines 139-164)

`fetch_one` tries `get_trips` up to 3 times with `time.sleep(1)` between
attempts, returning `{"id", "trips", "error"}`; the pool collects results in
completion order.  The remote call is modelled as an environment giving each
(tracker, attempt) either a JSON response or an exception; the completion
order is any permutation of the input ids.  For each fetch the model also
returns the seconds slept and the number of attempts used. -/
/-- Per-tracker fetch outcome (the dict built in fetch_one). -/
structure TripFetchResult where
  id : Int
  trips : JVal
  error : Option String

/-- One `self.get_trips(...)` call followed by `data.get("list", [])`; any
exception inside the try body surfaces as the error the except clause sees. -/
def getTripsCall (env : Int → Nat → Except String JVal) (tid : Int)
    (attempt : Nat) : Except String JVal :=
  match env tid attempt with
  | .error e => .error e
  | .ok (.obj fields) => .ok ((jfind fields "list").getD (.arr []))
  | .ok _ => .error "AttributeError"

/-- The retry loop of fetch_one (gm_api.py lines 147-157), structured over the
remaining iterations of `for attempt in range(attempts)`.  Returns the result
dict together with (seconds slept, attempts used); `none` models falling off
the loop end (unreachable for attempts = 3). -/
def fetch_one_go (env : Int → Nat → Except String JVal) (tid : Int)
    (attempts : Nat) : Nat → Option (TripFetchResult × Nat × Nat)
  | 0 => none
  | remaining + 1 =>
    match getTripsCall env tid (attempts - (remaining + 1)) with
    | .ok l => some (⟨tid, l, none⟩, 0, 1)
    | .error e =>
      if remaining = 0 then some (⟨tid, .arr [], some e⟩, 0, 1)
      else
        match fetch_one_go env tid attempts remaining with
        | none => none
        | some (r, sl, n) => some (r, sl + 1, n + 1)

/-- `fetch_one` with the source's attempts = 3. -/
def fetch_one (env : Int → Nat → Except String JVal) (tid : Int) :
    Option (TripFetchResult × Nat × Nat) :=
  fetch_one_go env tid 3 3

/-- Embedding of `get_trips_parallel`: one fetch per submitted id, results
appended in completion order (any permutation of the input list). -/
def get_trips_parallel (env : Int → Nat → Except String JVal)
    (completion_order : List Int) : List (Option TripFetchResult) :=
  completion_order.map (fun tid => (fetch_one env tid).map (fun r => r.1))

/-- Environment in which tracker 2 always fails and every other tracker
returns one trip. -/
def exampleTripsEnv : Int → Nat → Except String JVal :=
  fun tid _ =>
    if tid = 2 then .error "ConnectionError"
    else .ok (.obj [("list", .arr [.obj [("start_date", .str "2025-11-16 10:00:00")]])])

/-! ## Fuel report pipeline (app.py, load_fuel_data, lines 71-95)

The whole body sits in one try/except returning `{"error": str(e)}`; the id
check returns the no-report-id error; the poll loop runs at most 30 times
with `time.sleep(2)` after every unsuccessful check and its for-else returns
the timeout error.  The three remote calls are an abstract environment. -/
/-- Outcomes of the three remote operations one `load_fuel_data` run sees. -/
structure FuelEnv where
  gen : Except String JVal
  statusResp : Nat → Except String JVal
  retrieve : Except String JVal

/-- Python `x == 100` on a JSON value. -/
def jEq100 : JVal → Bool
  | .num q => q == 100
  | _ => false

/-- The poll loop (app.py lines 83-89): k is the current iteration index;
returns (whether the break was reached, seconds slept). -/
def poll_go (statusF : Nat → Except String JVal) : Nat → Nat → Except String (Bool × Nat)
  | _, 0 => .ok (false, 0)
  | k, remaining + 1 =>
    match statusF k with
    | .error e => .error e
    | .ok st =>
      match pyGet st "success" with
      | .error e => .error e
      | .ok su =>
        if truthy su = true then
          match pyGet st "percent_ready" with
          | .error e => .error e
          | .ok pr =>
            if jEq100 pr then .ok (true, 0)
            else
              match poll_go statusF (k + 1) remaining with
              | .error e => .error e
              | .ok (b, sl) => .ok (b, sl + 2)
        else
          match poll_go statusF (k + 1) remaining with
          | .error e => .error e
          | .ok (b, sl) => .ok (b, sl + 2)

/-- `{"error": e}`. -/
def errObj (e : String) : JVal := .obj [("error", .str e)]

/-- Embedding of `load_fuel_data` (app.py lines 71-95): result value plus
total poll-sleep seconds. -/
def load_fuel_data (env : FuelEnv) : JVal × Nat :=
  match env.gen with
  | .error e => (errObj e, 0)
  | .ok gen_resp =>
    match pyGet gen_resp "id" with
    | .error e => (errObj e, 0)
    | .ok rid =>
      if truthy rid = false then (errObj "Не удалось получить ID отчета", 0)
      else
        match poll_go env.statusResp 0 30 with
        | .error e => (errObj e, 0)
        | .ok (true, sl) =>
          (match env.retrieve with
           | .error e => errObj e
           | .ok v => v, sl)
        | .ok (false, sl) => (errObj "Таймаут создания отчета", sl)

/-- A status response after which the loop keeps polling: a dict whose
success is falsy or whose percent_ready is not the number 100. -/
def pollNotReady (r : Except String JVal) : Bool :=
  match r with
  | .ok (.obj fields) =>
    if truthy ((jfind fields "success").getD .null) = false then true
    else !jEq100 ((jfind fields "percent_ready").getD .null)
  | _ => false

/-- Environment whose generation response lacks a report id. -/
def fuelEnvNoId : FuelEnv := ⟨.ok (.obj []), fun _ => .ok .null, .ok .null⟩

/-- Environment whose status stub never reaches percent_ready = 100. -/
def fuelEnvTimeout : FuelEnv :=
  ⟨.ok (.obj [("id", .num 5)]),
   fun _ => .ok (.obj [("success", .bool true), ("percent_ready", .num 50)]),
   .ok (.obj [("success", .bool true)])⟩

/-! ## Rate-limit handling (gm_api.py, _post_with_retry lines 168-191 and
get_report_status lines 239-258)

`_post_with_retry` sleeps 1.5 s up front; in the loop a 429 response sleeps
`2 ** attempt + 1` and continues -- including on the LAST attempt, after
which the loop ends and the function returns None.  `raise_for_status`
errors other than the in-loop-handled 429 are re-raised.  `get_report_status`
polls up to 3 times, sleeping a FIXED 2 s on 429 (again returning None when
all three attempts are 429) and 1 s on other errors, re-raising on the third
attempt.  Responses are an abstract environment; each embedding returns the
outcome plus the list of sleeps in seconds. -/
/-- One HTTP exchange: a response with a status code and JSON body, or a
raised (non-HTTPError) exception. -/
inductive HttpOutcome where
  | resp (status : Nat) (body : JVal) : HttpOutcome
  | exn (msg : String) : HttpOutcome

/-- The retry loop of `_post_with_retry` (gm_api.py lines 174-191), over the
remaining iterations; k is the current attempt index. -/
def post_with_retry_go (post : Nat → HttpOutcome) (maxR : Nat) :
    Nat → Nat → Except String (Option JVal) × List ℚ
  | _, 0 => (.ok none, [])
  | k, remaining + 1 =>
    match post k with
    | .exn e => (.error e, [])
    | .resp s body =>
      if s = 429 then
        (( post_with_retry_go post maxR (k + 1) remaining).1,
          ((2 : ℚ) ^ k + 1) :: (post_with_retry_go post maxR (k + 1) remaining).2)
      else if s < 400 then (.ok (some body), [])
      else
        if s = 429 ∧ k < maxR - 1 then
          ((post_with_retry_go post maxR (k + 1) remaining).1,
            ((2 : ℚ) ^ k + 1) :: (post_with_retry_go post maxR (k + 1) remaining).2)
        else (.error ("HTTPError " ++ toString s), [])

/-- Embedding of `_post_with_retry` (gm_api.py lines 168-191) with its
initial 1.5-second sleep. -/
def post_with_retry (post : Nat → HttpOutcome) (maxR : Nat) :
    Except String (Option JVal) × List ℚ :=
  ((post_with_retry_go post maxR 0 maxR).1,
    (3 / 2 : ℚ) :: (post_with_retry_go post maxR 0 maxR).2)

/-- The retry loop of `get_report_status` (gm_api.py lines 248-258). -/
def get_report_status_go (get : Nat → HttpOutcome) :
    Nat → Nat → Except String (Option JVal) × List ℚ
  | _, 0 => (.ok none, [])
  | k, remaining + 1 =>
    match get k with
    | .resp s body =>
      if s = 429 then
        ((get_report_status_go get (k + 1) remaining).1,
          (2 : ℚ) :: (get_report_status_go get (k + 1) remaining).2)
      else if s < 400 then (.ok (some body), [])
      else
        if k = 2 then (.error ("HTTPError " ++ toString s), [])
        else ((get_report_status_go get (k + 1) remaining).1,
          (1 : ℚ) :: (get_report_status_go get (k + 1) remaining).2)
    | .exn e =>
      if k = 2 then (.error e, [])
      else ((get_report_status_go get (k + 1) remaining).1,
        (1 : ℚ) :: (get_report_status_go get (k + 1) remaining).2)

/-- Embedding of `get_report_status` (gm_api.py lines 239-258). -/
def get_report_status (get : Nat → HttpOutcome) : Except String (Option JVal) × List ℚ :=
  get_report_status_go get 0 3

/-- An HTTP 429 response. -/
def is429 (h : HttpOutcome) : Bool :=
  match h with
  | .resp s _ => s == 429
  | .exn _ => false

/-- Environment that always answers 429. -/
def all429 : Nat → HttpOutcome := fun _ => .resp 429 .null

/-! ## KPI reduction (app.py, module level, lines 440-483)

Per trip the loop adds `float(length or 0)` to the distance, the positive
(end - start) difference in seconds (falling back to the `duration` field
when either timestamp is falsy or fails to parse) to the move time, and a
numeric `idle_duration` to the idle time; the two averages divide by the
active-vehicle count, guarded by `if active_count`. -/
/-- ASCII whitespace test for `float()` trimming. -/
def isSpaceC (c : Char) : Bool :=
  c.toNat = 32 || c.toNat = 9 || c.toNat = 10 || c.toNat = 13

/-- Trim whitespace from both ends of a character list. -/
def trimC (l : List Char) : List Char :=
  ((l.dropWhile isSpaceC).reverse.dropWhile isSpaceC).reverse

/-- Python `float(s)` on a plain decimal string (sign, integer part,
fractional part -- the subset the trip data uses; no exponents/inf);
none models ValueError. -/
def parseFloatQ (s : String) : Option ℚ :=
  let t := trimC s.data
  let signed : ℚ × List Char :=
    match t with
    | c :: rest =>
      if c.toNat = 45 then (-1, rest)
      else if c.toNat = 43 then (1, rest) else (1, t)
    | [] => (1, [])
  match splitOnChar (Char.ofNat 46) signed.2 with
  | [ip] => (digitsToNat ip).map (fun n => signed.1 * n)
  | [ip, fp] =>
    if ip.isEmpty ∧ fp.isEmpty then none
    else if (ip.isEmpty ∨ ip.all isDigitC) ∧ (fp.isEmpty ∨ fp.all isDigitC) then
      some (signed.1 * (((ip.foldl (fun n c => n * 10 + (c.toNat - 48)) 0 : Nat) : ℚ) +
        ((fp.foldl (fun n c => n * 10 + (c.toNat - 48)) 0 : Nat) : ℚ) / (10 : ℚ) ^ fp.length))
    else none
  | _ => none

/-- Python `float(v)`: numbers pass through, booleans are 0/1, strings are
parsed, anything else raises TypeError. -/
def pyFloat : JVal → Except String ℚ
  | .num q => .ok q
  | .bool b => .ok (if b then 1 else 0)
  | .str s =>
    match parseFloatQ s with
    | some q => .ok q
    | none => .error "ValueError"
  | _ => .error "TypeError"

/-- Python numeric value for `+=` (booleans count as ints; anything else is
a TypeError). -/
def pyNumVal : JVal → Except String ℚ
  | .num q => .ok q
  | .bool b => .ok (if b then 1 else 0)
  | _ => .error "TypeError"

/-- `float(tr.get("length", 0) or 0)` (app.py line 449). -/
def tripDistance (tr : JVal) : Except String ℚ :=
  match pyGetD tr "length" (.num 0) with
  | .error e => .error e
  | .ok v => pyFloat (pyOr v (.num 0))

/-- `tr.get("duration") or 0` added to the move time (app.py 463/465). -/
def durFallback (tr : JVal) : Except String ℚ :=
  match pyGet tr "duration" with
  | .error e => .error e
  | .ok v => pyNumVal (pyOr v (.num 0))

/-- The move-time contribution of one trip (app.py lines 452-465): positive
(end - start) seconds when both timestamps are truthy and parse, otherwise
the explicit duration field. -/
def tripMoveTime (tr : JVal) : Except String ℚ :=
  match pyGet tr "start_date" with
  | .error e => .error e
  | .ok s_str =>
    match pyGet tr "end_date" with
    | .error e => .error e
    | .ok e_str =>
      if truthy s_str = true ∧ truthy e_str = true then
        match pyStrptimeDT s_str, pyStrptimeDT e_str with
        | some sd, some ed =>
          if ((ed - sd : Int) : ℚ) > 0 then .ok ((ed - sd : Int) : ℚ) else .ok 0
        | _, _ => durFallback tr
      else durFallback tr

/-- The idle-time contribution of one trip (app.py lines 468-470):
`tr.get("idle_duration") or 0` when an int/float, else nothing. -/
def tripIdle (tr : JVal) : Except String ℚ :=
  match pyGet tr "idle_duration" with
  | .error e => .error e
  | .ok v =>
    match pyOr v (.num 0) with
    | .num q => .ok q
    | .bool b => .ok (if b then 1 else 0)
    | _ => .ok 0

/-- One tracker's entry in `yesterday_trips` / `day_before_trips`. -/
structure TrackerTrips where
  id : Int
  trips : List JVal

/-- The KPI record the dashboard builds for one day. -/
structure KPI where
  active_count : Nat
  total_distance : ℚ
  total_move_time : ℚ
  total_idle_time : ℚ
  avg_drive_time : ℚ
  avg_mileage : ℚ

/-- The three running sums (distance, move time, idle time) after one trip. -/
def kpi_fold_trip (acc : ℚ × ℚ × ℚ) (tr : JVal) : Except String (ℚ × ℚ × ℚ) :=
  match tripDistance tr with
  | .error e => .error e
  | .ok d =>
    match tripMoveTime tr with
    | .error e => .error e
    | .ok m =>
      match tripIdle tr with
      | .error e => .error e
      | .ok i => .ok (acc.1 + d, acc.2.1 + m, acc.2.2 + i)

/-- The inner loop over one tracker's trips. -/
def kpi_fold_trips : List JVal → ℚ × ℚ × ℚ → Except String (ℚ × ℚ × ℚ)
  | [], acc => .ok acc
  | tr :: rest, acc =>
    match kpi_fold_trip acc tr with
    | .error e => .error e
    | .ok acc2 => kpi_fold_trips rest acc2

/-- The outer loop over the day's per-tracker entries. -/
def kpi_fold_items : List TrackerTrips → ℚ × ℚ × ℚ → Except String (ℚ × ℚ × ℚ)
  | [], acc => .ok acc
  | item :: rest, acc =>
    match kpi_fold_trips item.trips acc with
    | .error e => .error e
    | .ok acc2 => kpi_fold_items rest acc2

/-- Embedding of the KPI reduction (app.py lines 440-483): the loop sums plus
`active_count` and the two guarded averages. -/
def kpi_reduce (day : List TrackerTrips) : Except String KPI :=
  match kpi_fold_items day (0, 0, 0) with
  | .error e => .error e
  | .ok t =>
    let active_count := (day.filter (fun item => !item.trips.isEmpty)).length
    .ok ⟨active_count, t.1, t.2.1, t.2.2,
      if active_count ≠ 0 then t.2.1 / (active_count : ℚ) else 0,
      if active_count ≠ 0 then t.1 / (active_count : ℚ) else 0⟩

/-- Modelled from the claim's words: per-trip move time is (end - start) in
seconds whenever both timestamps parse, else the explicit duration field,
else 0 -- with no positivity restriction. -/
def claimTripMove (tr : JVal) : ℚ :=
  match tr with
  | .obj fields =>
    match pyStrptimeDT ((jfind fields "start_date").getD .null),
          pyStrptimeDT ((jfind fields "end_date").getD .null) with
    | some sd, some ed => ((ed - sd : Int) : ℚ)
    | _, _ =>
      match jfind fields "duration" with
      | some (.num q) => q
      | _ => 0
  | _ => 0

/-- Total move time as the claim words it. -/
def claimMoveTimeSum (day : List TrackerTrips) : ℚ :=
  (day.map (fun item => (item.trips.map claimTripMove).sum)).sum

/-- A trip whose end_date precedes its start_date by one hour. -/
def negTrip : JVal :=
  .obj [("start_date", .str "2025-11-16 10:00:00"),
        ("end_date", .str "2025-11-16 09:00:00")]

/-- The day list holding only that trip. -/
def negDay : List TrackerTrips := [⟨1, [negTrip]⟩]

/-- A field that is absent, null or a number. -/
def numOrNullAbsent (fields : List (String × JVal)) (k : String) : Bool :=
  match jfind fields k with
  | none => true
  | some .null => true
  | some (.num _) => true
  | _ => false

/-- A trip dict whose `length` and `duration` are numbers, null or absent and
whose `idle_duration` is not the Python boolean True (which `isinstance`
would count as the int 1). -/
def wfTrip (tr : JVal) : Bool :=
  match tr with
  | .obj fields =>
    numOrNullAbsent fields "length" && numOrNullAbsent fields "duration" &&
      (match jfind fields "idle_duration" with
       | some (.bool true) => false
       | _ => true)
  | _ => false

/-- Modelled from the amended claim: per-trip distance is the numeric length,
with missing or null treated as 0. -/
def specTripDistance (tr : JVal) : ℚ :=
  match tr with
  | .obj fields =>
    match jfind fields "length" with
    | some (.num q) => q
    | _ => 0
  | _ => 0

/-- Modelled from the amended claim: the numeric duration field, else 0. -/
def specDur (fields : List (String × JVal)) : ℚ :=
  match jfind fields "duration" with
  | some (.num q) => q
  | _ => 0

/-- Modelled from the amended claim: per-trip move time is (end - start) in
seconds when both timestamps parse AND the difference is positive (else 0
from that pair), falling back to the numeric duration field, else 0. -/
def specTripMove (tr : JVal) : ℚ :=
  match tr with
  | .obj fields =>
    match pyStrptimeDT ((jfind fields "start_date").getD .null),
          pyStrptimeDT ((jfind fields "end_date").getD .null) with
    | some sd, some ed =>
      if ((ed - sd : Int) : ℚ) > 0 then ((ed - sd : Int) : ℚ) else 0
    | _, _ => specDur fields
  | _ => 0

/-- Modelled from the claim: the numeric idle_duration, else 0. -/
def specTripIdle (tr : JVal) : ℚ :=
  match tr with
  | .obj fields =>
    match jfind fields "idle_duration" with
    | some (.num q) => q
    | _ => 0
  | _ => 0

/-- Modelled from the amended claim: the whole KPI record -- active count,
the three sums, and the two averages guarded to 0 when the count is 0. -/
def kpiSpec (day : List TrackerTrips) : KPI :=
  let ac := (day.filter (fun item => !item.trips.isEmpty)).length
  let td := (day.map (fun item => (item.trips.map specTripDistance).sum)).sum
  let tm := (day.map (fun item => (item.trips.map specTripMove).sum)).sum
  let ti := (day.map (fun item => (item.trips.map specTripIdle).sum)).sum
  ⟨ac, td, tm, ti, if ac ≠ 0 then tm / (ac : ℚ) else 0,
    if ac ≠ 0 then td / (ac : ℚ) else 0⟩

/-! ## Theorems -/

theorem statusFromFields_mem (conn move : String) (ign : Bool) :
    statusFromFields conn move ign ∈ canonicalStatuses := by
  unfold statusFromFields canonicalStatuses
  split_ifs <;> simp

theorem specStatusChain_mem (conn move : String) (ign : Bool) :
    specStatusChain conn move ign ∈ canonicalStatuses := by
  unfold specStatusChain canonicalStatuses
  split_ifs <;> simp

theorem extract_field_eq (g : List (String × JVal)) (k : String)
    (h : strOrNullOrAbsent g k = true) :
    pyLower (pyOr ((jfind g k).getD .null) (.str "")) = Except.ok (lowerField g k) := by
  unfold strOrNullOrAbsent at h
  unfold lowerField
  rcases hk : jfind g k with _ | v
  · simp [pyOr, pyLower, truthy]
    rfl
  · rw [hk] at h
    cases v with
    | null =>
      simp [pyOr, pyLower, truthy]
      rfl
    | str s =>
      by_cases hs : s = ""
      · simp [pyOr, pyLower, truthy, hs]
      · simp [pyOr, pyLower, truthy, hs]
    | bool b => simp at h
    | num q => simp at h
    | arr l => simp at h
    | obj l => simp at h

theorem chain_eq (c m : String) (i : Bool) :
    statusFromFields c m i = specStatusChain c m i := by
  unfold statusFromFields specStatusChain
  by_cases h1 : c ∈ offline_statuses <;> by_cases h2 : c = "" <;> simp [h1, h2]

theorem get_status_on_fields (state_obj : JVal) (g : List (String × JVal))
    (htr : truthy state_obj = true)
    (hs : pyGetD state_obj "state" state_obj = .ok (.obj g))
    (h1 : strOrNullOrAbsent g "connection_status" = true)
    (h2 : strOrNullOrAbsent g "movement_status" = true) :
    get_tracker_status state_obj =
      Except.ok (statusFromFields (lowerField g "connection_status")
        (lowerField g "movement_status")
        (truthy ((jfind g "ignition").getD (.bool false)))) := by
  unfold get_tracker_status
  rw [htr, hs]
  have e1 : pyGet (JVal.obj g) "connection_status" =
      Except.ok ((jfind g "connection_status").getD .null) := rfl
  have e2 : pyGet (JVal.obj g) "movement_status" =
      Except.ok ((jfind g "movement_status").getD .null) := rfl
  have e3 : pyGetD (JVal.obj g) "ignition" (.bool false) =
      Except.ok ((jfind g "ignition").getD (.bool false)) := rfl
  simp only [e1, e2, e3, extract_field_eq g "connection_status" h1,
    extract_field_eq g "movement_status" h2]
  simp

/-- Claim C1: on every raw tracker-state input (null, empty, flat or nested,
any status-string combination) the classifier returns exactly one of the five
canonical statuses, never throws, and follows the claim's ordered first-match
rules (formalised by `classifySpec`): case-insensitive comparison, ignition
defaulting to false, unknown combinations falling back to Offline. -/
theorem C1_classifier_total_and_ordered (v : JVal) (h : wellFormedState v = true) :
    get_tracker_status v = Except.ok (classifySpec v) ∧
      classifySpec v ∈ canonicalStatuses := by
  by_cases htr : truthy v = true
  · unfold wellFormedState at h
    rw [htr] at h
    simp only [Bool.true_eq_false, if_false] at h
    cases v with
    | null => simp [truthy] at htr
    | bool b => simp at h
    | num q => simp at h
    | str s => simp at h
    | arr l => simp at h
    | obj fields =>
      dsimp only at h
      rcases hst : jfind fields "state" with _ | w
      · rw [hst] at h
        simp only [Bool.and_eq_true] at h
        have hs : pyGetD (JVal.obj fields) "state" (JVal.obj fields) =
            Except.ok (JVal.obj fields) := by
          unfold pyGetD
          dsimp only
          rw [hst]
          rfl
        have heff : effFieldsOf (JVal.obj fields) = fields := by
          unfold effFieldsOf
          dsimp only
          rw [hst]
        rw [get_status_on_fields _ fields htr hs h.1 h.2, chain_eq]
        constructor
        · unfold classifySpec
          rw [htr, heff]
          simp
        · unfold classifySpec
          rw [htr, heff]
          simp only [Bool.true_eq_false, if_false]
          exact specStatusChain_mem _ _ _
      · rw [hst] at h
        cases w with
        | obj g =>
          simp only [Bool.and_eq_true] at h
          have hs : pyGetD (JVal.obj fields) "state" (JVal.obj fields) =
              Except.ok (JVal.obj g) := by
            unfold pyGetD
            dsimp only
            rw [hst]
            rfl
          have heff : effFieldsOf (JVal.obj fields) = g := by
            unfold effFieldsOf
            dsimp only
            rw [hst]
          rw [get_status_on_fields _ g htr hs h.1 h.2, chain_eq]
          constructor
          · unfold classifySpec
            rw [htr, heff]
            simp
          · unfold classifySpec
            rw [htr, heff]
            simp only [Bool.true_eq_false, if_false]
            exact specStatusChain_mem _ _ _
        | null => simp at h
        | bool b => simp at h
        | num q => simp at h
        | str s => simp at h
        | arr l => simp at h
  · have htr2 : truthy v = false := by
      cases hb : truthy v
      · rfl
      · exact absurd hb htr
    constructor
    · unfold get_tracker_status classifySpec
      rw [htr2]
      simp
    · unfold classifySpec
      rw [htr2]
      simp [canonicalStatuses]

theorem C1_witness :
    wellFormedState exampleState = true ∧
      (get_tracker_status exampleState = Except.ok (classifySpec exampleState) ∧
        classifySpec exampleState ∈ canonicalStatuses) :=
  ⟨rfl, C1_classifier_total_and_ordered exampleState rfl⟩

theorem splitStep_skip (y db : String) (acc : List JVal × List JVal)
    (fields : List (String × JVal))
    (h : truthy ((jfind fields "start_date").getD .null) = false) :
    splitStep y db acc (.obj fields) = .ok acc := by
  unfold splitStep
  have hget : pyGet (JVal.obj fields) "start_date" =
      Except.ok ((jfind fields "start_date").getD .null) := rfl
  rw [hget]
  dsimp only
  rw [h]
  simp

theorem splitStep_str (y db : String) (acc : List JVal × List JVal)
    (fields : List (String × JVal)) (s : String)
    (hsd : jfind fields "start_date" = some (.str s)) (hs : s ≠ "") :
    splitStep y db acc (.obj fields) =
      .ok (if s.take 10 = y then (acc.1 ++ [.obj fields], acc.2)
           else if s.take 10 = db then (acc.1, acc.2 ++ [.obj fields]) else acc) := by
  unfold splitStep
  have hget : pyGet (JVal.obj fields) "start_date" = Except.ok (JVal.str s) := by
    unfold pyGet pyGetD
    dsimp only
    rw [hsd]
    rfl
  rw [hget]
  dsimp only
  have htru : truthy (JVal.str s) = true := by simp [truthy, hs]
  rw [htru]
  simp only [Bool.true_eq_false, if_false]
  have hsl : pySlice10 (JVal.str s) = .ok (s.take 10) := rfl
  rw [hsl]
  dsimp only
  split_ifs <;> rfl

theorem splitTrips_filter_eq (y db : String) (hday : y ≠ db) :
    ∀ (trips : List JVal) (acc : List JVal × List JVal),
      trips.all wfTripStart = true →
      splitTrips y db trips acc =
        .ok (acc.1 ++ trips.filter (fun tr => tripDateKey tr == some y),
             acc.2 ++ trips.filter (fun tr => tripDateKey tr == some db)) := by
  intro trips
  induction trips with
  | nil => intro acc _; simp [splitTrips]
  | cons tr rest ih =>
    intro acc hwf
    simp only [List.all_cons, Bool.and_eq_true] at hwf
    obtain ⟨htr, hrest⟩ := hwf
    unfold splitTrips
    cases tr with
    | obj fields =>
      unfold wfTripStart strOrNullOrAbsent at htr
      dsimp only at htr
      rcases hsd : jfind fields "start_date" with _ | v
      · rw [hsd] at htr
        have hkey : tripDateKey (JVal.obj fields) = none := by
          unfold tripDateKey
          dsimp only
          rw [hsd]
        rw [splitStep_skip y db acc fields (by rw [hsd]; rfl)]
        dsimp only
        rw [ih acc hrest]
        simp [hkey]
      · rw [hsd] at htr
        cases v with
        | null =>
          have hkey : tripDateKey (JVal.obj fields) = none := by
            unfold tripDateKey
            dsimp only
            rw [hsd]
          rw [splitStep_skip y db acc fields (by rw [hsd]; rfl)]
          dsimp only
          rw [ih acc hrest]
          simp [hkey]
        | str s =>
          by_cases hs : s = ""
          · have hkey : tripDateKey (JVal.obj fields) = none := by
              unfold tripDateKey
              dsimp only
              rw [hsd]
              simp [hs]
            rw [splitStep_skip y db acc fields (by rw [hsd]; simp [hs, truthy])]
            dsimp only
            rw [ih acc hrest]
            simp [hkey]
          · have hkey : tripDateKey (JVal.obj fields) = some (s.take 10) := by
              unfold tripDateKey
              dsimp only
              rw [hsd]
              simp [hs]
            rw [splitStep_str y db acc fields s hsd hs]
            by_cases hy : s.take 10 = y
            · rw [if_pos hy]
              dsimp only
              rw [ih _ hrest]
              have hdb : ¬(s.take 10 = db) := by rw [hy]; exact hday
              simp [List.filter_cons, hkey, hy, hdb, hday, Ne.symm hday]
            · rw [if_neg hy]
              by_cases hdb : s.take 10 = db
              · rw [if_pos hdb]
                dsimp only
                rw [ih _ hrest]
                simp [List.filter_cons, hkey, hy, hdb, hday, Ne.symm hday]
              · rw [if_neg hdb]
                dsimp only
                rw [ih _ hrest]
                simp [List.filter_cons, hkey, hy, hdb, hday, Ne.symm hday]
        | bool b => simp at htr
        | num q => simp at htr
        | arr l => simp at htr
        | obj l => simp at htr
    | null => simp [wfTripStart] at htr
    | bool b => simp [wfTripStart] at htr
    | num q => simp [wfTripStart] at htr
    | str s2 => simp [wfTripStart] at htr
    | arr l => simp [wfTripStart] at htr

/-- Claim C6: for every trip list and pair of distinct day strings, the day
partition puts a trip with date key equal to the yesterday string only in the
yesterday bucket, one equal to the day-before string only in the day-before
bucket, and drops trips matching neither (including trips with no
`start_date`); no trip lands in both buckets. -/
theorem C6_day_partition (trips : List JVal) (y db : String)
    (hday : y ≠ db) (hwf : trips.all wfTripStart = true) :
    two_days_partition trips y db =
      .ok (trips.filter (fun tr => tripDateKey tr == some y),
           trips.filter (fun tr => tripDateKey tr == some db)) ∧
      ∀ tr : JVal, ¬(tripDateKey tr = some y ∧ tripDateKey tr = some db) := by
  constructor
  · have := splitTrips_filter_eq y db hday trips ([], []) hwf
    unfold two_days_partition
    simpa using this
  · intro tr ⟨h1, h2⟩
    rw [h1] at h2
    exact hday (Option.some.inj h2)

theorem C6_witness :
    ("2025-11-16" ≠ "2025-11-15" ∧
        [exampleTripYesterday, exampleTripNoStart].all wfTripStart = true) ∧
      two_days_partition [exampleTripYesterday, exampleTripNoStart]
          "2025-11-16" "2025-11-15" =
        .ok ([exampleTripYesterday], []) ∧
      ∀ tr : JVal,
        ¬(tripDateKey tr = some "2025-11-16" ∧ tripDateKey tr = some "2025-11-15") := by
  refine ⟨⟨by decide, by decide⟩, ?_, ?_⟩
  · have h := (C6_day_partition [exampleTripYesterday, exampleTripNoStart]
      "2025-11-16" "2025-11-15" (by decide) (by decide)).1
    rw [h]
    rfl
  · exact (C6_day_partition [exampleTripYesterday, exampleTripNoStart]
      "2025-11-16" "2025-11-15" (by decide) (by decide)).2

theorem get_val_ok (trf : List (String × JVal)) (k : String)
    (h : wfFuelItem trf k = true) :
    get_val (.obj trf) k = .ok (get_val_spec trf k) := by
  unfold wfFuelItem at h
  unfold get_val get_val_spec
  have hget : pyGetD (JVal.obj trf) k (.obj []) =
      Except.ok ((jfind trf k).getD (.obj [])) := rfl
  rw [hget]
  rcases hk : jfind trf k with _ | v
  · rw [hk] at h
    rfl
  · rw [hk] at h
    cases v with
    | obj itf =>
      dsimp only [Option.getD] at h ⊢
      have hraw : pyGet (JVal.obj itf) "raw" =
          Except.ok ((jfind itf "raw").getD .null) := rfl
      rw [hraw]
      rcases hr : jfind itf "raw" with _ | w
      · rfl
      · rw [hr] at h
        cases w with
        | num q => rfl
        | bool b => simp at h
        | null => rfl
        | str s2 => rfl
        | arr l => rfl
        | obj l => rfl
    | null => simp at h
    | bool b => simp at h
    | num q => simp at h
    | str s2 => simp at h
    | arr l => simp at h

theorem parse_fuel_body_ok (fields rf shf secf dbf trf : List (String × JVal))
    (sheets sections dataArr : List JVal)
    (h1 : jfind fields "report" = some (.obj rf))
    (h2 : jfind rf "sheets" = some (.arr sheets))
    (h3 : sheets.get? 0 = some (.obj shf))
    (h4 : jfind shf "sections" = some (.arr sections))
    (h5 : sections.get? 0 = some (.obj secf))
    (h6 : jfind secf "data" = some (.arr dataArr))
    (h7 : dataArr.get? 0 = some (.obj dbf))
    (h8 : totalRowOf dbf = some trf)
    (h9 : wfFuelItem trf "fillingsCount" = true)
    (h10 : wfFuelItem trf "fillingsVolume" = true)
    (h11 : wfFuelItem trf "drainsCount" = true)
    (h12 : wfFuelItem trf "drainsVolume" = true)
    (h13 : wfFuelItem trf "consumed" = true) :
    parse_fuel_body (.obj fields) =
      .ok (.obj [("fillings_count", get_val_spec trf "fillingsCount"),
                 ("fillings_vol", get_val_spec trf "fillingsVolume"),
                 ("drains_count", get_val_spec trf "drainsCount"),
                 ("drains_vol", get_val_spec trf "drainsVolume"),
                 ("consumed", get_val_spec trf "consumed")]) := by
  have e1 : pySubscr (JVal.obj fields) "report" = .ok (.obj rf) := by
    unfold pySubscr
    dsimp only
    rw [h1]
  have e2 : pySubscr (JVal.obj rf) "sheets" = .ok (.arr sheets) := by
    unfold pySubscr
    dsimp only
    rw [h2]
  have e3 : pyIndex (.arr sheets) 0 = .ok (.obj shf) := by
    unfold pyIndex
    dsimp only
    rw [h3]
  have e4 : pySubscr (JVal.obj shf) "sections" = .ok (.arr sections) := by
    unfold pySubscr
    dsimp only
    rw [h4]
  have e5 : pyIndex (.arr sections) 0 = .ok (.obj secf) := by
    unfold pyIndex
    dsimp only
    rw [h5]
  have e6 : pySubscr (JVal.obj secf) "data" = .ok (.arr dataArr) := by
    unfold pySubscr
    dsimp only
    rw [h6]
  have e7 : pyIndex (.arr dataArr) 0 = .ok (.obj dbf) := by
    unfold pyIndex
    dsimp only
    rw [h7]
  have e8 : pyGetD (JVal.obj dbf) "total" (.obj []) = .ok (.obj trf) := by
    unfold totalRowOf at h8
    unfold pyGetD
    dsimp only
    rcases ht : (jfind dbf "total").getD (.obj []) with _ | _ | _ | _ | _ | trf2
    · rw [ht] at h8; simp at h8
    · rw [ht] at h8; simp at h8
    · rw [ht] at h8; simp at h8
    · rw [ht] at h8; simp at h8
    · rw [ht] at h8; simp at h8
    · rw [ht] at h8
      simp only [Option.some.injEq] at h8
      rw [h8]
  unfold parse_fuel_body
  rw [e1]
  dsimp only
  rw [e2]
  dsimp only
  rw [e3]
  dsimp only
  rw [e4]
  dsimp only
  rw [e5]
  dsimp only
  rw [e6]
  dsimp only
  rw [e7]
  dsimp only
  rw [e8]
  dsimp only
  rw [get_val_ok trf "fillingsCount" h9, get_val_ok trf "fillingsVolume" h10,
    get_val_ok trf "drainsCount" h11, get_val_ok trf "drainsVolume" h12,
    get_val_ok trf "consumed" h13]

/-- Claim C5 counterexample: a truthy non-dict report body (the JSON number
1) makes `parse_fuel_report` raise AttributeError -- `rep.get("success")` is
evaluated outside the try block -- instead of returning the empty metrics
set, so "for every malformed input ... never raises" is false. -/
theorem C5_counterexample :
    parse_fuel_report (JVal.num 1) = Except.error "AttributeError" ∧
      (Except.error "AttributeError" : Except String JVal) ≠ .ok (.obj []) :=
  ⟨rfl, fun h => Except.noConfusion h⟩

/-- Claim C5 as amended: for every report body that is falsy or a dict the
parser never raises: a falsy body or a dict without truthy `success` yields
the empty metrics set; a dict whose nested structure is malformed (the inner
extraction raises) also yields the empty metrics set; and a well-formed
sheet-section-data-total structure yields the five metrics, each taken from
the numeric `raw` field and defaulted to 0 when missing or non-numeric.
Only a truthy non-dict body raises (see the counterexample). -/
theorem C5_parse_fuel_report_amended :
    (∀ rep : JVal, truthy rep = false → parse_fuel_report rep = .ok (.obj [])) ∧
    (∀ fields : List (String × JVal), truthy (JVal.obj fields) = true →
      truthy ((jfind fields "success").getD .null) = false →
      parse_fuel_report (.obj fields) = .ok (.obj [])) ∧
    (∀ (fields : List (String × JVal)) (e : String),
      truthy (JVal.obj fields) = true →
      truthy ((jfind fields "success").getD .null) = true →
      parse_fuel_body (.obj fields) = .error e →
      parse_fuel_report (.obj fields) = .ok (.obj [])) ∧
    (∀ (fields : List (String × JVal)) (v : JVal),
      truthy (JVal.obj fields) = true →
      truthy ((jfind fields "success").getD .null) = true →
      parse_fuel_body (.obj fields) = .ok v →
      parse_fuel_report (.obj fields) = .ok v) ∧
    (∀ (trf : List (String × JVal)) (k : String), wfFuelItem trf k = true →
      get_val (.obj trf) k = .ok (get_val_spec trf k)) := by
  refine ⟨?_, ?_, ?_, ?_, fun trf k h => get_val_ok trf k h⟩
  · intro rep h
    unfold parse_fuel_report
    rw [h]
    simp
  · intro fields htru hsu
    unfold parse_fuel_report
    rw [htru]
    have hget : pyGet (JVal.obj fields) "success" =
        Except.ok ((jfind fields "success").getD .null) := rfl
    simp only [Bool.true_eq_false, if_false, hget]
    rw [hsu]
    simp
  · intro fields e htru hsu hbody
    unfold parse_fuel_report
    rw [htru]
    have hget : pyGet (JVal.obj fields) "success" =
        Except.ok ((jfind fields "success").getD .null) := rfl
    simp only [Bool.true_eq_false, if_false, hget]
    rw [hsu, hbody]
    simp
  · intro fields v htru hsu hbody
    unfold parse_fuel_report
    rw [htru]
    have hget : pyGet (JVal.obj fields) "success" =
        Except.ok ((jfind fields "success").getD .null) := rfl
    simp only [Bool.true_eq_false, if_false, hget]
    rw [hsu, hbody]
    simp

theorem C5_witness :
    (truthy JVal.null = false ∧ parse_fuel_report JVal.null = .ok (.obj [])) ∧
      parse_fuel_report (.obj exampleFuelFields) =
        .ok (.obj [("fillings_count", .num 2), ("fillings_vol", .num 100),
                   ("drains_count", .num 1), ("drains_vol", .num 10),
                   ("consumed", .num 0)]) := by
  refine ⟨⟨rfl, C5_parse_fuel_report_amended.1 JVal.null rfl⟩, ?_⟩
  exact C5_parse_fuel_report_amended.2.2.2.1 exampleFuelFields _ rfl rfl rfl

/-- Claim C8 counterexample: nothing in the pipeline enforces non-negative
fuel totals -- a report whose `fillingsVolume.raw` is -5 parses to a fuel
total of -5, so "fuel totals ... are non-negative" is false as a statement
about the code. -/
theorem C8_counterexample :
    parse_fuel_report (.obj exampleFuelNegFields) =
      .ok (.obj [("fillings_count", .num 0), ("fillings_vol", .num (-5)),
                 ("drains_count", .num 0), ("drains_vol", .num 0),
                 ("consumed", .num 0)]) ∧
      ¬((0 : ℚ) ≤ -5) := by
  constructor
  · rfl
  · norm_num

/-- Claim C8 as amended: extracted fuel totals are non-negative whenever the
report's numeric raw fields are non-negative (missing or non-numeric fields
default to 0, but a negative raw value passes through unchanged, see the
counterexample); the loss percentage equals drains divided by fillings times
100 when the fillings volume is positive and is exactly 0 otherwise, with no
division error. -/
theorem C8_fuel_loss_amended :
    (∀ f d : ℚ, 0 < f → loss_pct f d = d / f * 100) ∧
    (∀ f d : ℚ, f ≤ 0 → loss_pct f d = 0) ∧
    (∀ (trf : List (String × JVal)) (k : String),
      rawNonNeg trf k = true → 0 ≤ get_val_q trf k) := by
  refine ⟨?_, ?_, ?_⟩
  · intro f d hf
    unfold loss_pct
    rw [if_pos hf]
  · intro f d hf
    unfold loss_pct
    rw [if_neg (not_lt.mpr hf)]
  · intro trf k h
    unfold rawNonNeg at h
    unfold get_val_q get_val_spec
    rcases hk : jfind trf k with _ | v
    · norm_num
    · rw [hk] at h
      cases v with
      | obj itf =>
        dsimp only at h ⊢
        rcases hr : jfind itf "raw" with _ | w
        · norm_num
        · rw [hr] at h
          cases w with
          | num q => simpa using h
          | null => norm_num
          | bool b => norm_num
          | str s2 => norm_num
          | arr l => norm_num
          | obj l => norm_num
      | null => norm_num
      | bool b => norm_num
      | num q => norm_num
      | str s2 => norm_num
      | arr l => norm_num

theorem C8_witness :
    loss_pct 100 10 = 10 ∧ loss_pct 0 10 = 0 ∧
      rawNonNeg exampleFuelNegFields "drainsVolume" = true ∧
      0 ≤ get_val_q exampleFuelNegFields "drainsVolume" := by
  refine ⟨?_, ?_, rfl, ?_⟩
  · rw [C8_fuel_loss_amended.1 100 10 (by norm_num)]
    norm_num
  · exact C8_fuel_loss_amended.2.1 0 10 (by norm_num)
  · exact C8_fuel_loss_amended.2.2 exampleFuelNegFields "drainsVolume" rfl

theorem classify_date_spec (today : Int) (v : JVal) (h : wfDateField v = true) :
    classify_date today v = .ok (bucketSpec today v) := by
  unfold wfDateField at h
  unfold classify_date bucketSpec
  cases v with
  | str s =>
    by_cases hs : s = ""
    · simp [truthy, hs]
    · simp only [truthy, hs, if_neg, if_false]
      rcases hp : parseDate s with _ | dt
      · simp [hs]
      · simp only [hs, if_false]
        by_cases h1 : dt < today
        · simp [h1]
        · by_cases h2 : dt < today + 30
          · simp [h1, h2, le_of_not_lt h1]
          · simp [h1, h2]
  | null => simp [truthy]
  | bool b =>
    cases b with
    | false => simp [truthy]
    | true => simp [truthy] at h
  | num q =>
    by_cases hq : q = 0
    · simp [truthy, hq]
    · simp [truthy, hq] at h
  | arr l =>
    cases l with
    | nil => simp [truthy]
    | cons x xs => simp [truthy] at h
  | obj l =>
    cases l with
    | nil => simp [truthy]
    | cons x xs => simp [truthy] at h

theorem process_dl_stats (today : Int) :
    ∀ (emps : List JVal) (acc : ComplianceStats × ComplianceDetails),
      emps.all wfEmployee = true →
      (process_driver_licenses today emps acc).map Prod.fst =
        .ok ⟨acc.1.ok + bucketCount (emps.map (licBucketJ today)) .ok,
             acc.1.expiring + bucketCount (emps.map (licBucketJ today)) .expiring,
             acc.1.expired + bucketCount (emps.map (licBucketJ today)) .expired,
             acc.1.empty + bucketCount (emps.map (licBucketJ today)) .empty⟩ := by
  intro emps
  induction emps with
  | nil =>
    intro acc _
    simp [process_driver_licenses, bucketCount, Except.map]
  | cons emp rest ih =>
    intro acc hwf
    simp only [List.all_cons, Bool.and_eq_true] at hwf
    obtain ⟨hemp, hrest⟩ := hwf
    cases emp with
    | obj fields =>
      unfold wfEmployee at hemp
      dsimp only at hemp
      unfold process_driver_licenses process_one_employee
      dsimp only
      rw [classify_date_spec today (dlVal fields) hemp]
      dsimp only
      rw [ih _ hrest]
      have hb : licBucketJ today (JVal.obj fields) = bucketSpec today (dlVal fields) := rfl
      cases hbk : bucketSpec today (dlVal fields) <;>
        simp [bump, List.map_cons, List.filter_cons, bucketCount, hb, hbk] <;>
        omega
    | null => simp [wfEmployee] at hemp
    | bool b => simp [wfEmployee] at hemp
    | num q => simp [wfEmployee] at hemp
    | str s2 => simp [wfEmployee] at hemp
    | arr l => simp [wfEmployee] at hemp

theorem process_ins_stats (today : Int) :
    ∀ (vehs : List JVal) (acc : ComplianceStats × ComplianceDetails),
      vehs.all wfVehicle = true →
      (process_insurance today vehs acc).map Prod.fst =
        .ok ⟨acc.1.ok + bucketCount (vehs.map (insBucketJ today)) .ok,
             acc.1.expiring + bucketCount (vehs.map (insBucketJ today)) .expiring,
             acc.1.expired + bucketCount (vehs.map (insBucketJ today)) .expired,
             acc.1.empty + bucketCount (vehs.map (insBucketJ today)) .empty⟩ := by
  intro vehs
  induction vehs with
  | nil =>
    intro acc _
    simp [process_insurance, bucketCount, Except.map]
  | cons v rest ih =>
    intro acc hwf
    simp only [List.all_cons, Bool.and_eq_true] at hwf
    obtain ⟨hv, hrest⟩ := hwf
    cases v with
    | obj fields =>
      unfold wfVehicle at hv
      dsimp only at hv
      unfold process_insurance process_one_vehicle
      dsimp only
      rw [classify_date_spec today (pyOr (liabVal fields) (freeVal fields)) hv]
      dsimp only
      rw [ih _ hrest]
      have hb : insBucketJ today (JVal.obj fields) =
          bucketSpec today (pyOr (liabVal fields) (freeVal fields)) := rfl
      cases hbk : bucketSpec today (pyOr (liabVal fields) (freeVal fields)) <;>
        simp [bump, List.map_cons, List.filter_cons, bucketCount, hb, hbk] <;>
        omega
    | null => simp [wfVehicle] at hv
    | bool b => simp [wfVehicle] at hv
    | num q => simp [wfVehicle] at hv
    | str s2 => simp [wfVehicle] at hv
    | arr l => simp [wfVehicle] at hv

/-- Claim C9: for every employee and vehicle the compliance classifier parses
the `YYYY-MM-DD` date field and assigns exactly one bucket -- missing or
unparseable gives Empty, a date before today gives Expired, a date within
[today, today + 30 days) gives ExpiringSoon, anything else Ok -- the run
counters are exactly the per-entity bucket counts, and a vehicle's date is
the first non-empty of the liability then the comprehensive insurance
field. -/
theorem C9_compliance_buckets :
    (∀ (today : Int) (v : JVal), wfDateField v = true →
      classify_date today v = .ok (bucketSpec today v)) ∧
    (∀ (today : Int) (emps : List JVal), emps.all wfEmployee = true →
      (process_driver_licenses_run today emps).map Prod.fst =
        .ok (statsOf (emps.map (licBucketJ today)))) ∧
    (∀ (today : Int) (vehs : List JVal), vehs.all wfVehicle = true →
      (process_insurance_run today vehs).map Prod.fst =
        .ok (statsOf (vehs.map (insBucketJ today)))) ∧
    (∀ (today : Int) (fields : List (String × JVal)),
      truthy (liabVal fields) = true →
      insBucketJ today (.obj fields) = bucketSpec today (liabVal fields)) ∧
    (∀ (today : Int) (fields : List (String × JVal)),
      truthy (liabVal fields) = false →
      insBucketJ today (.obj fields) = bucketSpec today (freeVal fields)) := by
  refine ⟨classify_date_spec, ?_, ?_, ?_, ?_⟩
  · intro today emps h
    have := process_dl_stats today emps (⟨0, 0, 0, 0⟩, ⟨[], [], [], []⟩) h
    unfold process_driver_licenses_run
    rw [this]
    simp [statsOf]
  · intro today vehs h
    have := process_ins_stats today vehs (⟨0, 0, 0, 0⟩, ⟨[], [], [], []⟩) h
    unfold process_insurance_run
    rw [this]
    simp [statsOf]
  · intro today fields h
    unfold insBucketJ pyOr
    dsimp only
    rw [h]
    simp
  · intro today fields h
    unfold insBucketJ pyOr
    dsimp only
    rw [h]
    simp

theorem C9_witness :
    (wfDateField (JVal.str "2025-06-20") = true ∧
      classify_date 20240 (.str "2025-06-20") = .ok .expiring) ∧
    classify_date 20240 (.str "2025-05-01") = .ok .expired ∧
    classify_date 20240 (.str "2026-01-01") = .ok .ok ∧
    classify_date 20240 JVal.null = .ok .empty ∧
    classify_date 20240 (.str "not a date") = .ok .empty ∧
    (process_driver_licenses_run 20240 [exampleEmployee]).map Prod.fst =
      .ok ⟨0, 1, 0, 0⟩ := by
  refine ⟨⟨rfl, ?_⟩, ?_, ?_, ?_, ?_, ?_⟩
  · exact (C9_compliance_buckets.1 20240 (.str "2025-06-20") rfl).trans
      (congrArg Except.ok (by decide))
  · exact (C9_compliance_buckets.1 20240 (.str "2025-05-01") rfl).trans
      (congrArg Except.ok (by decide))
  · exact (C9_compliance_buckets.1 20240 (.str "2026-01-01") rfl).trans
      (congrArg Except.ok (by decide))
  · exact (C9_compliance_buckets.1 20240 JVal.null rfl).trans
      (congrArg Except.ok (by decide))
  · exact (C9_compliance_buckets.1 20240 (.str "not a date") rfl).trans
      (congrArg Except.ok (by decide))
  · exact (C9_compliance_buckets.2.1 20240 [exampleEmployee] (by decide)).trans
      (congrArg Except.ok (by decide))

theorem pyGetD_state_eff (v : JVal) (h : wfStateShape v = true) :
    pyGetD v "state" v = .ok (.obj (effFieldsOf v)) := by
  unfold wfStateShape at h
  unfold pyGetD effFieldsOf
  cases v with
  | obj fields =>
    dsimp only at h ⊢
    rcases hst : jfind fields "state" with _ | w
    · rw [hst] at h
      rfl
    · rw [hst] at h
      cases w with
      | obj g => rfl
      | null => simp at h
      | bool b => simp at h
      | num q => simp at h
      | str s2 => simp at h
      | arr l => simp at h
  | null => simp at h
  | bool b => simp at h
  | num q => simp at h
  | str s2 => simp at h
  | arr l => simp at h

theorem active_filter_go_spec (ps : Int) (states : List (Int × JVal)) :
    ∀ (ids acc : List Int),
      ids.all (fun tid => wfStateShape ((states.lookup tid).getD (.obj []))) = true →
      active_filter_go ps states ids acc =
        .ok (acc ++ ids.filter (includeSpec ps states)) := by
  intro ids
  induction ids with
  | nil => intro acc _; simp [active_filter_go]
  | cons tid rest ih =>
    intro acc hwf
    simp only [List.all_cons, Bool.and_eq_true] at hwf
    obtain ⟨hme, hrest⟩ := hwf
    unfold active_filter_go
    dsimp only
    rw [pyGetD_state_eff _ hme]
    dsimp only
    have hget : pyGet (JVal.obj (effFieldsOf ((states.lookup tid).getD (.obj []))))
          "last_update" =
        Except.ok ((jfind (effFieldsOf ((states.lookup tid).getD (.obj [])))
          "last_update").getD .null) := rfl
    rw [hget]
    dsimp only
    set lu := (jfind (effFieldsOf ((states.lookup tid).getD (.obj [])))
      "last_update").getD .null with hlu
    by_cases h1 : truthy lu = false
    · rw [if_pos h1, ih _ hrest]
      have hinc : includeSpec ps states tid = true := by
        unfold includeSpec
        dsimp only
        rw [← hlu, h1]
        simp
      simp [List.filter_cons, hinc]
    · rw [if_neg h1]
      rcases hp : pyStrptimeDT lu with _ | t
      · rw [ih _ hrest]
        have hinc : includeSpec ps states tid = true := by
          unfold includeSpec
          dsimp only
          rw [← hlu]
          rw [if_neg h1, hp]
        simp [List.filter_cons, hinc]
      · dsimp only
        by_cases hc : t ≥ ps - 86400
        · rw [if_pos hc, ih _ hrest]
          have hinc : includeSpec ps states tid = true := by
            unfold includeSpec
            dsimp only
            rw [← hlu]
            rw [if_neg h1, hp]
            simpa using hc
          simp [List.filter_cons, hinc]
        · rw [if_neg hc, ih _ hrest]
          have hinc : includeSpec ps states tid = false := by
            unfold includeSpec
            dsimp only
            rw [← hlu]
            rw [if_neg h1, hp]
            simpa using hc
          simp [List.filter_cons, hinc]

/-- Claim C10 counterexample: the filter has no upper bound.  With period
start 2025-11-15 the dashboard's "now" is at most period_start + 3 days
(from_dt is built as 00:00:00 of the day before yesterday), yet a tracker
whose last_update is 2099-01-01 -- far outside the claimed window
[period_start - 1 day, now] -- is still included in the fetch set, so the
"every tracker whose last-update lies outside that window is excluded" half
of the claim is false.  The code never compares against the wall clock. -/
theorem C10_counterexample :
    active_tracker_filter psCex cexStates [42] = .ok [42] ∧
      parseDateTime "2099-01-01 00:00:00" = some (daysFromCivil 2099 1 1 * 86400) ∧
      psCex + 3 * 86400 < daysFromCivil 2099 1 1 * 86400 := by
  refine ⟨rfl, by decide, by decide⟩

/-- Claim C10 as amended: a tracker is included in the fetch set if and only
if its last-update timestamp is absent or falsy (conservatively included),
fails to parse (also conservatively included), or is at least
`period_start - 1 day`; there is no upper bound at "now". -/
theorem C10_active_filter_amended (ps : Int) (states : List (Int × JVal))
    (ids : List Int)
    (h : ids.all (fun tid => wfStateShape ((states.lookup tid).getD (.obj []))) = true) :
    active_tracker_filter ps states ids = .ok (ids.filter (includeSpec ps states)) := by
  have := active_filter_go_spec ps states ids [] h
  unfold active_tracker_filter
  simpa using this

theorem C10_witness :
    ([42, 7].all (fun tid => wfStateShape ((cexStates.lookup tid).getD (.obj []))) = true) ∧
      active_tracker_filter psCex cexStates [42, 7] =
        .ok ([42, 7].filter (includeSpec psCex cexStates)) ∧
      [42, 7].filter (includeSpec psCex cexStates) = [42, 7] := by
  refine ⟨by decide, C10_active_filter_amended psCex cexStates [42, 7] (by decide), rfl⟩

theorem fetch_one_ok0 (env : Int → Nat → Except String JVal) (tid : Int)
    (l : JVal) (h0 : getTripsCall env tid 0 = .ok l) :
    fetch_one env tid = some (⟨tid, l, none⟩, 0, 1) := by
  simp [fetch_one, fetch_one_go, h0]

theorem fetch_one_ok1 (env : Int → Nat → Except String JVal) (tid : Int)
    (e0 : String) (l : JVal)
    (h0 : getTripsCall env tid 0 = .error e0) (h1 : getTripsCall env tid 1 = .ok l) :
    fetch_one env tid = some (⟨tid, l, none⟩, 1, 2) := by
  simp [fetch_one, fetch_one_go, h0, h1]

theorem fetch_one_ok2 (env : Int → Nat → Except String JVal) (tid : Int)
    (e0 e1 : String) (l : JVal)
    (h0 : getTripsCall env tid 0 = .error e0) (h1 : getTripsCall env tid 1 = .error e1)
    (h2 : getTripsCall env tid 2 = .ok l) :
    fetch_one env tid = some (⟨tid, l, none⟩, 2, 3) := by
  simp [fetch_one, fetch_one_go, h0, h1, h2]

theorem fetch_one_fail (env : Int → Nat → Except String JVal) (tid : Int)
    (e0 e1 e2 : String)
    (h0 : getTripsCall env tid 0 = .error e0) (h1 : getTripsCall env tid 1 = .error e1)
    (h2 : getTripsCall env tid 2 = .error e2) :
    fetch_one env tid = some (⟨tid, .arr [], some e2⟩, 2, 3) := by
  simp [fetch_one, fetch_one_go, h0, h1, h2]

theorem fetch_one_total (env : Int → Nat → Except String JVal) (tid : Int) :
    ∃ r sl n, fetch_one env tid = some (r, sl, n) ∧ r.id = tid ∧
      n ≤ 3 ∧ sl = n - 1 ∧
      (r.error = none ∨ (r.trips = .arr [] ∧ r.error ≠ none)) := by
  rcases h0 : getTripsCall env tid 0 with e0 | l0
  · rcases h1 : getTripsCall env tid 1 with e1 | l1
    · rcases h2 : getTripsCall env tid 2 with e2 | l2
      · exact ⟨_, _, _, fetch_one_fail env tid e0 e1 e2 h0 h1 h2, rfl, by omega, rfl,
          Or.inr ⟨rfl, by simp⟩⟩
      · exact ⟨_, _, _, fetch_one_ok2 env tid e0 e1 l2 h0 h1 h2, rfl, by omega, rfl,
          Or.inl rfl⟩
    · exact ⟨_, _, _, fetch_one_ok1 env tid e0 l1 h0 h1, rfl, by omega, rfl, Or.inl rfl⟩
  · exact ⟨_, _, _, fetch_one_ok0 env tid l0 h0, rfl, by omega, rfl, Or.inl rfl⟩

theorem fetch_one_env_local (env env2 : Int → Nat → Except String JVal) (tid : Int)
    (h : ∀ k, env tid k = env2 tid k) : fetch_one env tid = fetch_one env2 tid := by
  have hc : ∀ k, getTripsCall env tid k = getTripsCall env2 tid k := by
    intro k
    unfold getTripsCall
    rw [h k]
  unfold fetch_one
  simp only [fetch_one_go, hc 0, hc 1, hc 2]

/-- Claim C2: for every environment of per-(tracker, attempt) outcomes and
every completion order (a permutation of the N input ids), the orchestrator
returns exactly N per-tracker results, one per input id; every fetch is a
value, never an exception; each per-tracker fetch uses at most 3 attempts
with a 1-second pause between consecutive attempts; a tracker all of whose
attempts fail yields an empty trip list with the last error string; and each
tracker's result depends only on that tracker's own outcomes. -/
theorem C2_trips_parallel (env : Int → Nat → Except String JVal)
    (tracker_ids completion_order : List Int)
    (hperm : completion_order.Perm tracker_ids) :
    (get_trips_parallel env completion_order).length = tracker_ids.length ∧
    (∀ r ∈ get_trips_parallel env completion_order, ∃ x, r = some x) ∧
    ((get_trips_parallel env completion_order).map
        (fun r => r.map (fun x => x.id))).Perm (tracker_ids.map some) ∧
    (∀ tid : Int, ∃ r sl n, fetch_one env tid = some (r, sl, n) ∧ r.id = tid ∧
      n ≤ 3 ∧ sl = n - 1 ∧
      (r.error = none ∨ (r.trips = .arr [] ∧ r.error ≠ none))) ∧
    (∀ (tid : Int) (e0 e1 e2 : String),
      getTripsCall env tid 0 = .error e0 → getTripsCall env tid 1 = .error e1 →
      getTripsCall env tid 2 = .error e2 →
      fetch_one env tid = some (⟨tid, .arr [], some e2⟩, 2, 3)) ∧
    (∀ (env2 : Int → Nat → Except String JVal) (tid : Int),
      (∀ k, env tid k = env2 tid k) → fetch_one env tid = fetch_one env2 tid) := by
  have hid : ∀ tid : Int, ((fetch_one env tid).map (fun r => r.1)).map
      (fun x => x.id) = some tid := by
    intro tid
    obtain ⟨r, sl, n, hr, hrid, _, _, _⟩ := fetch_one_total env tid
    rw [hr]
    simp [hrid]
  refine ⟨?_, ?_, ?_, fetch_one_total env, fetch_one_fail env, fetch_one_env_local env⟩
  · rw [get_trips_parallel, List.length_map, hperm.length_eq]
  · intro r hr
    rw [get_trips_parallel, List.mem_map] at hr
    obtain ⟨tid, _, hmap⟩ := hr
    obtain ⟨x, sl, n, hx, _, _, _, _⟩ := fetch_one_total env tid
    exact ⟨x, by rw [← hmap, hx]; rfl⟩
  · have : (get_trips_parallel env completion_order).map (fun r => r.map (fun x => x.id)) =
        completion_order.map (fun tid => some tid) := by
      rw [get_trips_parallel, List.map_map]
      exact List.map_congr_left (fun tid _ => hid tid)
    rw [this]
    have h2 : tracker_ids.map some = tracker_ids.map (fun tid => some tid) := rfl
    rw [h2]
    exact hperm.map _

theorem C2_witness :
    [2, 1].Perm [1, 2] ∧
      (get_trips_parallel exampleTripsEnv [2, 1]).length = 2 ∧
      fetch_one exampleTripsEnv 2 =
        some (⟨2, .arr [], some "ConnectionError"⟩, 2, 3) := by
  refine ⟨by decide, ?_, ?_⟩
  · exact (C2_trips_parallel exampleTripsEnv [1, 2] [2, 1] (by decide)).1
  · exact (C2_trips_parallel exampleTripsEnv [1, 2] [2, 1] (by decide)).2.2.2.2.1 2
      "ConnectionError" "ConnectionError" "ConnectionError" rfl rfl rfl

theorem poll_go_timeout (statusF : Nat → Except String JVal) :
    ∀ (remaining k : Nat),
      (∀ j, j < remaining → pollNotReady (statusF (k + j)) = true) →
      poll_go statusF k remaining = .ok (false, 2 * remaining) := by
  intro remaining
  induction remaining with
  | zero => intro k _; rfl
  | succ rem ih =>
    intro k h
    have h0 : pollNotReady (statusF k) = true := by
      have := h 0 (Nat.succ_pos rem)
      simpa using this
    have hrec : poll_go statusF (k + 1) rem = .ok (false, 2 * rem) := by
      apply ih
      intro j hj
      have := h (j + 1) (by omega)
      have harith : k + (j + 1) = k + 1 + j := by omega
      rwa [harith] at this
    unfold poll_go
    unfold pollNotReady at h0
    rcases hst : statusF k with e | st
    · rw [hst] at h0; simp at h0
    · rw [hst] at h0
      cases st with
      | obj fields =>
        dsimp only at h0 ⊢
        have hsu : pyGet (JVal.obj fields) "success" =
            Except.ok ((jfind fields "success").getD .null) := rfl
        rw [hsu]
        dsimp only
        by_cases htru : truthy ((jfind fields "success").getD .null) = false
        · rw [htru]
          simp only [Bool.false_eq_true, if_false, hrec]
          have harr : 2 * rem + 2 = 2 * (rem + 1) := by omega
          rw [harr]
        · have htru2 : truthy ((jfind fields "success").getD .null) = true := by
            cases hb : truthy ((jfind fields "success").getD .null)
            · exact absurd hb htru
            · rfl
          rw [htru2] at h0 ⊢
          simp only [Bool.true_eq_false, if_false, Bool.not_eq_eq_eq_not, Bool.not_true] at h0
          have hpr : pyGet (JVal.obj fields) "percent_ready" =
              Except.ok ((jfind fields "percent_ready").getD .null) := rfl
          simp only [if_true, hpr]
          rw [if_neg (by simp [h0]), hrec]
          dsimp only
          have harr : 2 * rem + 2 = 2 * (rem + 1) := by omega
          rw [harr]
      | null => simp at h0
      | bool b => simp at h0
      | num q => simp at h0
      | str s2 => simp at h0
      | arr l => simp at h0

/-- Claim C3: `load_fuel_data` never lets an exception escape -- every
outcome is either the retrieved report or an `{"error": ...}` value; when
generation succeeds but carries no (truthy) report id the result is the
no-report-id failure; and when 30 polls at 2-second spacing (60 seconds
slept) never reach success with percent_ready == 100, the result is the
report-timeout failure, not an exception. -/
theorem C3_load_fuel_data (env : FuelEnv) :
    ((∃ e, (load_fuel_data env).1 = errObj e) ∨
      env.retrieve = .ok (load_fuel_data env).1) ∧
    (∀ fields : List (String × JVal), env.gen = .ok (.obj fields) →
      truthy ((jfind fields "id").getD .null) = false →
      load_fuel_data env = (errObj "Не удалось получить ID отчета", 0)) ∧
    (∀ fields : List (String × JVal), env.gen = .ok (.obj fields) →
      truthy ((jfind fields "id").getD .null) = true →
      (∀ k, k < 30 → pollNotReady (env.statusResp k) = true) →
      load_fuel_data env = (errObj "Таймаут создания отчета", 60)) := by
  refine ⟨?_, ?_, ?_⟩
  · unfold load_fuel_data
    rcases hgen : env.gen with e | gen_resp
    · exact Or.inl ⟨e, rfl⟩
    · dsimp only
      rcases hid : pyGet gen_resp "id" with e | rid
      · exact Or.inl ⟨e, rfl⟩
      · dsimp only
        by_cases htru : truthy rid = false
        · rw [if_pos htru]
          exact Or.inl ⟨_, rfl⟩
        · rw [if_neg htru]
          rcases hpoll : poll_go env.statusResp 0 30 with e | br
          · exact Or.inl ⟨e, rfl⟩
          · rcases br with ⟨b, sl⟩
            cases b with
            | false => exact Or.inl ⟨_, rfl⟩
            | true =>
              dsimp only
              rcases hret : env.retrieve with e | v
              · exact Or.inl ⟨e, rfl⟩
              · exact Or.inr rfl
  · intro fields hgen hid
    unfold load_fuel_data
    rw [hgen]
    dsimp only
    have hg : pyGet (JVal.obj fields) "id" =
        Except.ok ((jfind fields "id").getD .null) := rfl
    rw [hg]
    dsimp only
    rw [hid]
    simp
  · intro fields hgen hid hpoll
    unfold load_fuel_data
    rw [hgen]
    dsimp only
    have hg : pyGet (JVal.obj fields) "id" =
        Except.ok ((jfind fields "id").getD .null) := rfl
    rw [hg]
    dsimp only
    rw [hid]
    simp only [Bool.true_eq_false, if_false]
    rw [poll_go_timeout env.statusResp 30 0 (fun j hj => by simpa using hpoll j hj)]

theorem C3_witness :
    load_fuel_data fuelEnvNoId = (errObj "Не удалось получить ID отчета", 0) ∧
      load_fuel_data fuelEnvTimeout = (errObj "Таймаут создания отчета", 60) := by
  constructor
  · exact (C3_load_fuel_data fuelEnvNoId).2.1 [] rfl rfl
  · exact (C3_load_fuel_data fuelEnvTimeout).2.2 [("id", .num 5)] rfl rfl
      (fun k _ => rfl)

/-- Claim C4 counterexample: when every attempt yields a 429 response, both
operations run off the end of their loops and return None -- `.ok none`, a
non-error value -- instead of surfacing the last HTTP error, and the status
poller waits a fixed 2 s per retry (2, 2, 2), not `2 ** attempt + 1`
(2, 3, 5).  Generation does back off with 1.5, 2 ** 0 + 1, ..., 2 ** 4 + 1
seconds over its 5 attempts. -/
theorem C4_counterexample :
    post_with_retry all429 5 = (.ok none, [3 / 2, 2, 3, 5, 9, 17]) ∧
      get_report_status all429 = (.ok none, [2, 2, 2]) ∧
      [(2 : ℚ), 2, 2] ≠ [(2 : ℚ), 3, 5] := by
  refine ⟨?_, rfl, by norm_num⟩
  show (_, (3 / 2 : ℚ) :: _) = _
  norm_num [post_with_retry, post_with_retry_go, all429]

theorem post_go_429 (post : Nat → HttpOutcome) (maxR k r : Nat)
    (h : is429 (post k) = true) :
    post_with_retry_go post maxR k (r + 1) =
      ((post_with_retry_go post maxR (k + 1) r).1,
        ((2 : ℚ) ^ k + 1) :: (post_with_retry_go post maxR (k + 1) r).2) := by
  unfold is429 at h
  cases hp : post k with
  | resp s body =>
    rw [hp] at h
    have hs : s = 429 := by simpa using h
    subst hs
    conv_lhs => rw [post_with_retry_go]
    rw [hp]
    simp
  | exn e =>
    rw [hp] at h
    simp at h

theorem status_go_429 (get : Nat → HttpOutcome) (k r : Nat)
    (h : is429 (get k) = true) :
    get_report_status_go get k (r + 1) =
      ((get_report_status_go get (k + 1) r).1,
        (2 : ℚ) :: (get_report_status_go get (k + 1) r).2) := by
  unfold is429 at h
  cases hp : get k with
  | resp s body =>
    rw [hp] at h
    have hs : s = 429 := by simpa using h
    subst hs
    conv_lhs => rw [get_report_status_go]
    rw [hp]
    simp
  | exn e =>
    rw [hp] at h
    simp at h

/-- Claim C4 as amended: on HTTP 429 the generation call waits
`2 ** attempt + 1` seconds and retries, up to 5 attempts; status polling
retries up to 3 attempts but waits a fixed 2 seconds on 429; when every
allowed attempt is answered 429 the operation returns None (`.ok none`, no
error is surfaced -- see the counterexample); an HTTP error status other
than 429 is raised to the caller, and a success response returns its body. -/
theorem C4_rate_limit_amended :
    (∀ post : Nat → HttpOutcome, (∀ k, k < 5 → is429 (post k) = true) →
      post_with_retry post 5 = (.ok none, [3 / 2, 2, 3, 5, 9, 17])) ∧
    (∀ get : Nat → HttpOutcome, (∀ k, k < 3 → is429 (get k) = true) →
      get_report_status get = (.ok none, [2, 2, 2])) ∧
    (∀ (post : Nat → HttpOutcome) (s : Nat) (body : JVal), post 0 = .resp s body →
      400 ≤ s → s ≠ 429 →
      post_with_retry post 5 = (.error ("HTTPError " ++ toString s), [3 / 2])) ∧
    (∀ (post : Nat → HttpOutcome) (s : Nat) (body : JVal), post 0 = .resp s body →
      s < 400 → post_with_retry post 5 = (.ok (some body), [3 / 2])) := by
  refine ⟨?_, ?_, ?_, ?_⟩
  · intro post h
    unfold post_with_retry
    rw [show (5 : Nat) = 4 + 1 from rfl, post_go_429 post 5 0 4 (h 0 (by omega)),
      show (4 : Nat) = 3 + 1 from rfl, post_go_429 post 5 1 3 (h 1 (by omega)),
      show (3 : Nat) = 2 + 1 from rfl, post_go_429 post 5 2 2 (h 2 (by omega)),
      show (2 : Nat) = 1 + 1 from rfl, post_go_429 post 5 3 1 (h 3 (by omega)),
      show (1 : Nat) = 0 + 1 from rfl, post_go_429 post 5 4 0 (h 4 (by omega))]
    norm_num [post_with_retry_go]
  · intro get h
    unfold get_report_status
    rw [show (3 : Nat) = 2 + 1 from rfl, status_go_429 get 0 2 (h 0 (by omega)),
      show (2 : Nat) = 1 + 1 from rfl, status_go_429 get 1 1 (h 1 (by omega)),
      show (1 : Nat) = 0 + 1 from rfl, status_go_429 get 2 0 (h 2 (by omega))]
    norm_num [get_report_status_go]
  · intro post s body hp hge hne
    unfold post_with_retry
    rw [show (5 : Nat) = 4 + 1 from rfl]
    unfold post_with_retry_go
    rw [hp]
    dsimp only
    rw [if_neg hne, if_neg (by omega)]
    rw [if_neg (by rintro ⟨h429, h2⟩; exact hne h429)]
  · intro post s body hp hlt
    unfold post_with_retry
    rw [show (5 : Nat) = 4 + 1 from rfl]
    unfold post_with_retry_go
    rw [hp]
    dsimp only
    rw [if_neg (by omega), if_pos hlt]

theorem C4_witness :
    (∀ k, k < 5 → is429 (all429 k) = true) ∧
      post_with_retry all429 5 = (.ok none, [3 / 2, 2, 3, 5, 9, 17]) ∧
      get_report_status all429 = (.ok none, [2, 2, 2]) ∧
      post_with_retry (fun _ => .resp 503 .null) 5 =
        (.error ("HTTPError " ++ toString 503), [3 / 2]) := by
  refine ⟨fun k _ => rfl, ?_, ?_, ?_⟩
  · exact C4_rate_limit_amended.1 all429 (fun k _ => rfl)
  · exact C4_rate_limit_amended.2.1 all429 (fun k _ => rfl)
  · exact C4_rate_limit_amended.2.2.1 (fun _ => .resp 503 .null) 503 .null rfl
      (by omega) (by omega)

/-- Claim C7 counterexample: for a trip whose timestamps both parse but whose
end precedes its start, the code adds nothing (`if dur > 0` guard, app.py
line 459), so the computed total move time is 0, while the claim's "sum of
(end_date - start_date) in seconds when both timestamps parse" is -3600. -/
theorem C7_counterexample :
    (kpi_reduce negDay).map KPI.total_move_time = .ok 0 ∧
      claimMoveTimeSum negDay = -3600 ∧ (0 : ℚ) ≠ -3600 := by
  have hd : tripDistance negTrip = .ok 0 := rfl
  have hi : tripIdle negTrip = .ok 0 := rfl
  have hm : tripMoveTime negTrip = .ok 0 := by
    show (if ((1763283600 - 1763287200 : Int) : ℚ) > 0 then
        Except.ok (((1763283600 - 1763287200 : Int) : ℚ)) else Except.ok 0) = .ok 0
    rw [if_neg (by norm_num)]
  have hf : kpi_fold_trip (0, 0, 0) negTrip = .ok (0 + 0, 0 + 0, 0 + 0) := by
    unfold kpi_fold_trip
    rw [hd, hm, hi]
  have hts : kpi_fold_trips [negTrip] (0, 0, 0) = .ok (0 + 0, 0 + 0, 0 + 0) := by
    unfold kpi_fold_trips
    rw [hf]
    rfl
  have hitems : kpi_fold_items negDay (0, 0, 0) = .ok (0 + 0, 0 + 0, 0 + 0) := by
    unfold kpi_fold_items negDay
    dsimp only
    rw [hts]
    rfl
  refine ⟨?_, ?_, by norm_num⟩
  · unfold kpi_reduce
    rw [hitems]
    dsimp only
    norm_num [Except.map]
  · have h1 : claimTripMove negTrip = ((1763283600 - 1763287200 : Int) : ℚ) := rfl
    unfold claimMoveTimeSum negDay
    simp only [List.map_cons, List.map_nil, List.sum_cons, List.sum_nil, h1]
    norm_num

theorem strptime_falsy (v : JVal) (h : truthy v = false) : pyStrptimeDT v = none := by
  cases v with
  | str s =>
    by_cases hs : s = ""
    · subst hs
      decide
    · simp [truthy, hs] at h
  | null => rfl
  | bool b => simp [truthy] at h; subst h; rfl
  | num q => rfl
  | arr l => rfl
  | obj l => rfl

theorem tripDistance_spec (tr : JVal) (h : wfTrip tr = true) :
    tripDistance tr = .ok (specTripDistance tr) := by
  cases tr with
  | obj fields =>
    unfold wfTrip at h
    dsimp only at h
    simp only [Bool.and_eq_true] at h
    obtain ⟨⟨hlen, _⟩, _⟩ := h
    unfold numOrNullAbsent at hlen
    unfold tripDistance specTripDistance
    have hget : pyGetD (JVal.obj fields) "length" (.num 0) =
        Except.ok ((jfind fields "length").getD (.num 0)) := rfl
    rw [hget]
    dsimp only
    rcases hk : jfind fields "length" with _ | v
    · rfl
    · rw [hk] at hlen
      cases v with
      | num q =>
        dsimp only
        by_cases hq : q = 0
        · subst hq
          simp [pyOr, truthy, pyFloat]
        · simp [pyOr, truthy, pyFloat, hq]
      | null => rfl
      | bool b => simp at hlen
      | str s2 => simp at hlen
      | arr l => simp at hlen
      | obj l => simp at hlen
  | null => simp [wfTrip] at h
  | bool b => simp [wfTrip] at h
  | num q => simp [wfTrip] at h
  | str s2 => simp [wfTrip] at h
  | arr l => simp [wfTrip] at h

theorem durFallback_spec (fields : List (String × JVal))
    (h : numOrNullAbsent fields "duration" = true) :
    durFallback (.obj fields) = .ok (specDur fields) := by
  unfold numOrNullAbsent at h
  unfold durFallback specDur
  have hget : pyGet (JVal.obj fields) "duration" =
      Except.ok ((jfind fields "duration").getD .null) := rfl
  rw [hget]
  dsimp only
  rcases hk : jfind fields "duration" with _ | v
  · rfl
  · rw [hk] at h
    cases v with
    | num q =>
      dsimp only
      by_cases hq : q = 0
      · subst hq
        simp [pyOr, truthy, pyNumVal]
      · simp [pyOr, truthy, pyNumVal, hq]
    | null => rfl
    | bool b => simp at h
    | str s2 => simp at h
    | arr l => simp at h
    | obj l => simp at h

theorem tripMoveTime_spec (tr : JVal) (h : wfTrip tr = true) :
    tripMoveTime tr = .ok (specTripMove tr) := by
  cases tr with
  | obj fields =>
    unfold wfTrip at h
    dsimp only at h
    simp only [Bool.and_eq_true] at h
    obtain ⟨⟨_, hdur⟩, _⟩ := h
    unfold tripMoveTime specTripMove
    have hgs : pyGet (JVal.obj fields) "start_date" =
        Except.ok ((jfind fields "start_date").getD .null) := rfl
    have hge : pyGet (JVal.obj fields) "end_date" =
        Except.ok ((jfind fields "end_date").getD .null) := rfl
    rw [hgs]
    dsimp only
    rw [hge]
    dsimp only
    by_cases hs : truthy ((jfind fields "start_date").getD .null) = true
    · by_cases he : truthy ((jfind fields "end_date").getD .null) = true
      · rw [if_pos ⟨hs, he⟩]
        rcases hps : pyStrptimeDT ((jfind fields "start_date").getD .null) with _ | sd
        · exact durFallback_spec fields hdur
        · rcases hpe : pyStrptimeDT ((jfind fields "end_date").getD .null) with _ | ed
          · exact durFallback_spec fields hdur
          · dsimp only
            split_ifs <;> rfl
      · rw [if_neg (by rintro ⟨h1, h2⟩; exact he h2)]
        have he2 : truthy ((jfind fields "end_date").getD .null) = false := by
          cases hb : truthy ((jfind fields "end_date").getD .null)
          · rfl
          · exact absurd hb he
        rw [strptime_falsy _ he2]
        rcases pyStrptimeDT ((jfind fields "start_date").getD .null) with _ | sd
        · exact durFallback_spec fields hdur
        · exact durFallback_spec fields hdur
    · rw [if_neg (by rintro ⟨h1, h2⟩; exact hs h1)]
      have hs2 : truthy ((jfind fields "start_date").getD .null) = false := by
        cases hb : truthy ((jfind fields "start_date").getD .null)
        · rfl
        · exact absurd hb hs
      rw [strptime_falsy _ hs2]
      exact durFallback_spec fields hdur
  | null => simp [wfTrip] at h
  | bool b => simp [wfTrip] at h
  | num q => simp [wfTrip] at h
  | str s2 => simp [wfTrip] at h
  | arr l => simp [wfTrip] at h

theorem tripIdle_spec (tr : JVal) (h : wfTrip tr = true) :
    tripIdle tr = .ok (specTripIdle tr) := by
  cases tr with
  | obj fields =>
    unfold wfTrip at h
    dsimp only at h
    simp only [Bool.and_eq_true] at h
    obtain ⟨_, hidle⟩ := h
    unfold tripIdle specTripIdle
    have hget : pyGet (JVal.obj fields) "idle_duration" =
        Except.ok ((jfind fields "idle_duration").getD .null) := rfl
    rw [hget]
    dsimp only
    rcases hk : jfind fields "idle_duration" with _ | v
    · rfl
    · rw [hk] at hidle
      cases v with
      | num q =>
        dsimp only
        by_cases hq : q = 0
        · subst hq
          simp [pyOr, truthy]
        · simp [pyOr, truthy, hq]
      | null => rfl
      | bool b =>
        cases b with
        | false => rfl
        | true => simp at hidle
      | str s2 =>
        dsimp only
        by_cases hs : s2 = ""
        · subst hs
          rfl
        · simp [pyOr, truthy, hs]
      | arr l =>
        cases l with
        | nil => rfl
        | cons x xs => simp [pyOr, truthy]
      | obj l =>
        cases l with
        | nil => rfl
        | cons x xs => simp [pyOr, truthy]
  | null => simp [wfTrip] at h
  | bool b => simp [wfTrip] at h
  | num q => simp [wfTrip] at h
  | str s2 => simp [wfTrip] at h
  | arr l => simp [wfTrip] at h

theorem kpi_fold_trip_spec (acc : ℚ × ℚ × ℚ) (tr : JVal) (h : wfTrip tr = true) :
    kpi_fold_trip acc tr =
      .ok (acc.1 + specTripDistance tr, acc.2.1 + specTripMove tr,
        acc.2.2 + specTripIdle tr) := by
  unfold kpi_fold_trip
  rw [tripDistance_spec tr h, tripMoveTime_spec tr h, tripIdle_spec tr h]

theorem kpi_fold_trips_spec :
    ∀ (trips : List JVal) (acc : ℚ × ℚ × ℚ), trips.all wfTrip = true →
      kpi_fold_trips trips acc =
        .ok (acc.1 + (trips.map specTripDistance).sum,
          acc.2.1 + (trips.map specTripMove).sum,
          acc.2.2 + (trips.map specTripIdle).sum) := by
  intro trips
  induction trips with
  | nil => intro acc _; simp [kpi_fold_trips]
  | cons tr rest ih =>
    intro acc hwf
    simp only [List.all_cons, Bool.and_eq_true] at hwf
    obtain ⟨htr, hrest⟩ := hwf
    unfold kpi_fold_trips
    rw [kpi_fold_trip_spec acc tr htr]
    dsimp only
    rw [ih _ hrest]
    simp [add_assoc]

theorem kpi_fold_items_spec :
    ∀ (day : List TrackerTrips) (acc : ℚ × ℚ × ℚ),
      day.all (fun item => item.trips.all wfTrip) = true →
      kpi_fold_items day acc =
        .ok (acc.1 + (day.map (fun item => (item.trips.map specTripDistance).sum)).sum,
          acc.2.1 + (day.map (fun item => (item.trips.map specTripMove).sum)).sum,
          acc.2.2 + (day.map (fun item => (item.trips.map specTripIdle).sum)).sum) := by
  intro day
  induction day with
  | nil => intro acc _; simp [kpi_fold_items]
  | cons item rest ih =>
    intro acc hwf
    simp only [List.all_cons, Bool.and_eq_true] at hwf
    obtain ⟨hitem, hrest⟩ := hwf
    unfold kpi_fold_items
    rw [kpi_fold_trips_spec item.trips acc hitem]
    dsimp only
    rw [ih _ hrest]
    simp [add_assoc]

/-- Claim C7 as amended: for one day's trips whose length/duration fields are
numbers, null or absent, the KPI reduction computes active-vehicle count =
trackers with at least one trip; total distance = sum of numeric lengths
(missing/null as 0); total move time = sum of positive (end - start)
differences when both timestamps parse (non-positive differences contribute
0), else the numeric duration field, else 0; total idle time = sum of numeric
idle_duration values; and both averages are the totals divided by the
active-vehicle count, 0 when that count is 0. -/
theorem C7_kpi_reduction_amended (day : List TrackerTrips)
    (h : day.all (fun item => item.trips.all wfTrip) = true) :
    kpi_reduce day = .ok (kpiSpec day) := by
  unfold kpi_reduce
  rw [kpi_fold_items_spec day (0, 0, 0) h]
  dsimp only
  unfold kpiSpec
  simp

theorem C7_witness :
    (negDay.all (fun item => item.trips.all wfTrip) = true) ∧
      kpi_reduce negDay = .ok (kpiSpec negDay) :=
  ⟨by decide, C7_kpi_reduction_amended negDay (by decide)⟩
